import Mathlib

/-!
# Flux and storage terms of the porous-media core

Shallow embedding of

* `dumux/new_decoupled/2p/transport/fv/capillarydiffusion.hh`
  (`Dune::CapillaryDiffusion::operator()`), and
* `ewoms/models/common/energymodule.hh` (`Ewoms::EnergyModule`).

Scalars (`double` in the sources) are embedded as exact rationals.  A division
whose denominator is zero does not produce a number (in the sources it yields an
infinity or a NaN, which then reaches every dependent component of the result);
such an evaluation is `none` here.  In the energy module a call that throws, fails an
assertion or divides by zero ends in a `Failure`.
-/

namespace Dune

/-- Scalar division `a / b`; there is no value when the denominator is zero. -/
def sdiv (a b : ℚ) : Option ℚ :=
  if b = 0 then none else some (a / b)

/-- A `Dune::FieldVector<Scalar, dim>`. -/
abbrev FieldVector (dim : Nat) := Fin dim → ℚ

/-- A `Dune::FieldMatrix<Scalar, dim, dim>`. -/
abbrev FieldMatrix (dim : Nat) := Fin dim → Fin dim → ℚ

/-- The two fluid phases, `Indices::wPhaseIdx` and `Indices::nPhaseIdx`. -/
inductive PhaseIdx where
  | wPhaseIdx
  | nPhaseIdx
  deriving DecidableEq, Repr

/-- The `PhaseState` handed to the fluid system: it is updated with a temperature only. -/
structure PhaseState where
  temperature : ℚ
  deriving DecidableEq

/-- Method `PhaseState::update(temperature)`. -/
def PhaseState.update (_old : PhaseState) (temperature : ℚ) : PhaseState :=
  { temperature := temperature }

/-- One intersection of a cell: its local index and, when `neighbor()` holds, the
cell reached by `outside()`. -/
structure Intersection (Element : Type) where
  indexInInside : Int
  outside : Option Element

/-- Method `Intersection::neighbor()`. -/
def Intersection.neighbor {Element : Type} (is : Intersection Element) : Bool :=
  is.outside.isSome

/-- The collaborators `operator()` reads through `problem_`: spatial parameters, the
material law, the fluid system, the variable cache and the grid view.  Quantities
that the source looks up at a cell centre are functions of the cell. -/
structure Problem (dim : Nat) (Element Params : Type) where
  /-- Lookup `spatialParameters().intrinsicPermeability(globalPos, element)`. -/
  intrinsicPermeability : Element → FieldMatrix dim
  /-- Lookup `spatialParameters().materialLawParams(globalPos, element)`. -/
  materialLawParams : Element → Params
  /-- Lookup `temperature(globalPos, element)`. -/
  temperature : Element → ℚ
  /-- Lookup `variables().index(element)`. -/
  index : Element → Nat
  /-- Lookup `variables().mobilityWetting(globalIdx)`. -/
  mobilityWetting : Nat → ℚ
  /-- Lookup `variables().mobilityNonwetting(globalIdx)`. -/
  mobilityNonwetting : Nat → ℚ
  /-- Function `MaterialLaw::krw(params, sat)`. -/
  krw : Params → ℚ → ℚ
  /-- Function `MaterialLaw::krn(params, sat)`. -/
  krn : Params → ℚ → ℚ
  /-- Function `FluidSystem::phaseViscosity(phaseIdx, phaseState)`. -/
  phaseViscosity : PhaseIdx → PhaseState → ℚ
  /-- The range `gridView().ibegin(element) .. iend(element)`. -/
  intersections : Element → List (Intersection Element)

/-- All entries of an option-valued matrix, provided every one of them is a value. -/
def seqMatrix {dim : Nat} (f : Fin dim → Fin dim → Option ℚ) : Option (FieldMatrix dim) :=
  if h : ∀ x y, (f x y).isSome = true then some (fun x y => (f x y).get (h x y)) else none

/-- Body of the permeability loop for one entry: `a` is `permeability[x][y]`, `b` is
`permeabilityJ[x][y]`; the entry is overwritten only when both are nonzero. -/
def harmonicEntry (a b : ℚ) : Option ℚ :=
  if a ≠ 0 ∧ b ≠ 0 then sdiv (2 * a * b) (a + b) else some a

/-- The loop `for x, for y` over the entries of `permeability`. -/
def harmonicMean {dim : Nat} (permeability permeabilityJ : FieldMatrix dim) :
    Option (FieldMatrix dim) :=
  seqMatrix (fun x y => harmonicEntry (permeability x y) (permeabilityJ x y))

/-- Method `FieldMatrix::umv(x, y)`: `y += A x`. -/
def umv {dim : Nat} (A : FieldMatrix dim) (x y : FieldVector dim) : FieldVector dim :=
  fun i => y i + ∑ j, A i j * x j

/-- The mobilities of a cell read from the variable cache (`preComput_` branch). -/
def cachedMobilities {dim : Nat} {Element Params : Type} (problem : Problem dim Element Params)
    (element : Element) : ℚ × ℚ :=
  (problem.mobilityWetting (problem.index element),
   problem.mobilityNonwetting (problem.index element))

/-- The mobilities recomputed from the material law at the parameters and
temperature of `element` and the saturation `sat`. -/
def computedMobilities {dim : Nat} {Element Params : Type} (problem : Problem dim Element Params)
    (element : Element) (sat : ℚ) : Option (ℚ × ℚ) := do
  let phaseState := PhaseState.update ⟨0⟩ (problem.temperature element)
  let mobilityW ← sdiv (problem.krw (problem.materialLawParams element) sat)
    (problem.phaseViscosity PhaseIdx.wPhaseIdx phaseState)
  let mobilityNW ← sdiv (problem.krn (problem.materialLawParams element) sat)
    (problem.phaseViscosity PhaseIdx.nPhaseIdx phaseState)
  pure (mobilityW, mobilityNW)

/-- The coefficient `mobBar = mobilityWMean * mobilityNWMean / (mobilityWMean + mobilityNWMean)`. -/
def mobBar (mobilityWMean mobilityNWMean : ℚ) : Option ℚ :=
  sdiv (mobilityWMean * mobilityNWMean) (mobilityWMean + mobilityNWMean)

/-- The `if (preComput_) ... else ...` selection of a cell's mobilities, as it occurs
for the inside cell (with `satI`) and for the neighbor (with `satJ`). -/
def selectMobilities {dim : Nat} {Element Params : Type} (problem : Problem dim Element Params)
    (preComput : Bool) (element : Element) (sat : ℚ) : Option (ℚ × ℚ) :=
  if preComput then some (cachedMobilities problem element)
  else computedMobilities problem element sat

/-- Method `CapillaryDiffusion::operator()`.  The result is `none` when no intersection of
`element` carries `indexInInside` (the source then dereferences the end iterator) or
when a division by zero is executed. -/
def CapillaryDiffusion.operatorCall {dim : Nat} {Element Params : Type}
    (problem : Problem dim Element Params) (preComput : Bool)
    (element : Element) (indexInInside : Int) (satI satJ : ℚ)
    (pcGradient : FieldVector dim) : Option (FieldVector dim) := do
  let permeability := problem.intrinsicPermeability element
  let isIt ← (problem.intersections element).find? (fun is => is.indexInInside == indexInInside)
  let (mobilityWI, mobilityNWI) ← selectMobilities problem preComput element satI
  let (permeability, mobBarValue) ←
    match isIt.outside with
    | some neighbor => do
      let permeabilityJ := problem.intrinsicPermeability neighbor
      let permeability ← harmonicMean permeability permeabilityJ
      let (mobilityWJ, mobilityNWJ) ← selectMobilities problem preComput neighbor satJ
      let mobilityWMean := (1 / 2 : ℚ) * (mobilityWI + mobilityWJ)
      let mobilityNWMean := (1 / 2 : ℚ) * (mobilityNWI + mobilityNWJ)
      let mobBarValue ← mobBar mobilityWMean mobilityNWMean
      pure (permeability, mobBarValue)
    | none => do
      let (mobilityWJ, mobilityNWJ) ← computedMobilities problem element satJ
      let mobWMean := (1 / 2 : ℚ) * (mobilityWI + mobilityWJ)
      let mobNWMean := (1 / 2 : ℚ) * (mobilityNWI + mobilityNWJ)
      let mobBarValue ← mobBar mobWMean mobNWMean
      pure (permeability, mobBarValue)
  let result := umv permeability pcGradient (fun _ => 0)
  pure (fun i => result i * mobBarValue)

/-- Two cells `0` and `1` sharing a face (local index `1` of cell `0`, local index `0`
of cell `1`), each with one boundary face; isotropic permeability `1e-12`, cached
mobilities `0.5`, linear relative permeabilities and unit viscosities. -/
def twoCellProblem : Problem 2 (Fin 2) Unit where
  intrinsicPermeability := fun _ => ![![1e-12, 0], ![0, 1e-12]]
  materialLawParams := fun _ => ()
  temperature := fun _ => 293
  index := fun e => e.val
  mobilityWetting := fun _ => 1 / 2
  mobilityNonwetting := fun _ => 1 / 2
  krw := fun _ s => s
  krn := fun _ s => 1 - s
  phaseViscosity := fun _ _ => 1
  intersections := fun e =>
    if e = 0 then [⟨0, none⟩, ⟨1, some 1⟩] else [⟨0, some 0⟩, ⟨1, none⟩]

/-- As `twoCellProblem`, with unit permeability in cell `0` and a cell `1` that is
sealed in the first coordinate direction. -/
def sealedProblem : Problem 2 (Fin 2) Unit where
  intrinsicPermeability := fun e => if e = 0 then ![![1, 0], ![0, 1]] else ![![0, 0], ![0, 1]]
  materialLawParams := fun _ => ()
  temperature := fun _ => 293
  index := fun e => e.val
  mobilityWetting := fun _ => 1 / 2
  mobilityNonwetting := fun _ => 1 / 2
  krw := fun _ s => s
  krn := fun _ s => 1 - s
  phaseViscosity := fun _ _ => 1
  intersections := fun e =>
    if e = 0 then [⟨0, none⟩, ⟨1, some 1⟩] else [⟨0, some 0⟩, ⟨1, none⟩]

/-- As `twoCellProblem`, with both fluids immobile: cached mobilities and relative
permeabilities are zero everywhere. -/
def immobileProblem : Problem 2 (Fin 2) Unit where
  intrinsicPermeability := fun _ => ![![1e-12, 0], ![0, 1e-12]]
  materialLawParams := fun _ => ()
  temperature := fun _ => 293
  index := fun e => e.val
  mobilityWetting := fun _ => 0
  mobilityNonwetting := fun _ => 0
  krw := fun _ _ => 0
  krn := fun _ _ => 0
  phaseViscosity := fun _ _ => 1
  intersections := fun e =>
    if e = 0 then [⟨0, none⟩, ⟨1, some 1⟩] else [⟨0, some 0⟩, ⟨1, none⟩]

end Dune

namespace Ewoms

/-- The per-phase accessors of a fluid state that the energy module reads. -/
structure FluidState where
  temperature : Nat → ℚ
  density : Nat → ℚ
  enthalpy : Nat → ℚ
  internalEnergy : Nat → ℚ
  saturation : Nat → ℚ

/-- The per-cell quantities (`IntensiveQuantities`) read by the energy module. -/
structure IntensiveQuantities where
  fluidState : FluidState
  porosity : ℚ
  /-- Accessor `heatCapacitySolid()` of the enabled `EnergyIntensiveQuantities`. -/
  heatCapacitySolid : ℚ
  /-- Accessor `heatConductivity()` of the enabled `EnergyIntensiveQuantities`. -/
  heatConductivity : ℚ

/-- The per-face quantities (`ExtensiveQuantities`) read by the advective flux. -/
structure ExtensiveQuantities where
  upstreamIndex : Nat → Int
  volumeFlux : Nat → ℚ
  interiorIndex : Int
  exteriorIndex : Int
  /-- Accessor `temperatureGradNormal()` of the enabled `EnergyExtensiveQuantities`. -/
  temperatureGradNormal : ℚ
  /-- Accessor `heatConductivity()` of the enabled `EnergyExtensiveQuantities`. -/
  heatConductivity : ℚ
  fractureWidth : ℚ
  fractureVolumeFlux : Nat → ℚ

/-- The evaluation context: `extensiveQuantities(spaceIdx, timeIdx)`,
`intensiveQuantities(dofIdx, timeIdx)` and `model().phaseIsConsidered(phaseIdx)`. -/
structure Context where
  extensiveQuantities : Int → Int → ExtensiveQuantities
  intensiveQuantities : Int → Int → IntensiveQuantities
  phaseIsConsidered : Nat → Bool
  /-- Lookup `stencil(timeIdx).interiorFace(spaceIdx).area()`. -/
  interiorFaceArea : Int → Int → ℚ

/-- The compile-time constants of a model: `numEq`, `numPhases` and the two indices
`Indices::energyEqIdx`, `Indices::temperatureIdx`. -/
structure TypeTag where
  numEq : Nat
  numPhases : Nat
  energyEqIdx : Fin numEq
  temperatureIdx : Fin numEq

/-- A `RateVector` / `Dune::FieldVector<_, numEq>`. -/
abbrev RateVector (numEq : Nat) := Fin numEq → ℚ

/-- Body of the phase loop of `addAdvectiveFlux` for one `phaseIdx`. -/
def advectivePhase (tt : TypeTag) (context : Context) (extQuants : ExtensiveQuantities)
    (timeIdx : Int) (flux : RateVector tt.numEq) (phaseIdx : Nat) : RateVector tt.numEq :=
  if !context.phaseIsConsidered phaseIdx then flux
  else
    let up := context.intensiveQuantities (extQuants.upstreamIndex phaseIdx) timeIdx
    Function.update flux tt.energyEqIdx
      (flux tt.energyEqIdx
        + extQuants.volumeFlux phaseIdx
          * up.fluidState.enthalpy phaseIdx
          * up.fluidState.density phaseIdx)

/-- Method `EnergyModule<TypeTag, true>::addAdvectiveFlux`. -/
def EnergyModule.addAdvectiveFlux (tt : TypeTag) (flux : RateVector tt.numEq)
    (context : Context) (spaceIdx timeIdx : Int) : RateVector tt.numEq :=
  let extQuants := context.extensiveQuantities spaceIdx timeIdx
  (List.range tt.numPhases).foldl (advectivePhase tt context extQuants timeIdx) flux

/-- Method `EnergyModule<TypeTag, true>::addPhaseStorage`. -/
def EnergyModule.addPhaseStorage (tt : TypeTag) (storage : RateVector tt.numEq)
    (intQuants : IntensiveQuantities) (phaseIdx : Nat) : RateVector tt.numEq :=
  let fs := intQuants.fluidState
  Function.update storage tt.energyEqIdx
    (storage tt.energyEqIdx
      + fs.density phaseIdx
        * fs.internalEnergy phaseIdx
        * fs.saturation phaseIdx
        * intQuants.porosity)

/-- Modelled from the spec: the rule by which the per-face cache fills
`upstreamIndex(phaseIdx)`; the code that updates the model's `ExtensiveQuantities`
(and with it `upstreamIndex` and `volumeFlux`) is not part of the sources.  The spec:
"flux > 0 ⇒ flow from inside to outside, inside is upstream; flux < 0 ⇒ reversed";
it does not say which cell is taken at zero flux, which is the argument
`zeroFluxIndex` here. -/
def upstreamIndexOfFlux (interiorIndex exteriorIndex zeroFluxIndex : Int) (volumeFlux : ℚ) :
    Int :=
  if volumeFlux > 0 then interiorIndex
  else if volumeFlux < 0 then exteriorIndex
  else zeroFluxIndex

/-- Modelled from the spec: the per-face cache after its update, which is not part of
the sources, has filled `upstreamIndex(phaseIdx)` from the sign of the phase's volume
flux over this face: the face's own `interiorIndex()` for a positive flux, its
`exteriorIndex()` for a negative one ("upstreamIndex determined solely by sign of
volumeFlux for that phase"); at zero flux, where the spec names no cell, the entry is
left as it is. -/
def ExtensiveQuantities.withUpwindIndex (extQuants : ExtensiveQuantities) :
    ExtensiveQuantities :=
  { extQuants with
    upstreamIndex := fun phaseIdx =>
      upstreamIndexOfFlux extQuants.interiorIndex extQuants.exteriorIndex
        (extQuants.upstreamIndex phaseIdx) (extQuants.volumeFlux phaseIdx) }

/-- Modelled from the spec: the context all of whose per-face caches have been updated
by `ExtensiveQuantities.withUpwindIndex`. -/
def Context.withUpwindCache (context : Context) : Context :=
  { context with
    extensiveQuantities := fun spaceIdx timeIdx =>
      (context.extensiveQuantities spaceIdx timeIdx).withUpwindIndex }

/-- The context in which `phaseIsConsidered(phaseIdx)` answers `considered` and
everything else is as in `context`. -/
def Context.considering (context : Context) (phaseIdx : Nat) (considered : Bool) : Context :=
  { context with
    phaseIsConsidered := Function.update context.phaseIsConsidered phaseIdx considered }

/-- The context whose faces carry the volume fluxes `volumeFlux` and are otherwise as
in `context`. -/
def Context.withVolumeFlux (context : Context) (volumeFlux : Nat → ℚ) : Context :=
  { context with
    extensiveQuantities := fun spaceIdx timeIdx =>
      { context.extensiveQuantities spaceIdx timeIdx with volumeFlux := volumeFlux } }

/-- A two-phase, three-equation model whose energy equation has index `2`. -/
def sampleTypeTag : TypeTag where
  numEq := 3
  numPhases := 2
  energyEqIdx := 2
  temperatureIdx := 2

/-- A fluid state with distinct values per phase, scaled by `c`. -/
def sampleFluidState (c : ℚ) : FluidState where
  temperature := fun _ => 300
  density := fun p => c * (p + 1)
  enthalpy := fun p => c + p
  internalEnergy := fun p => c + 2 * p
  saturation := fun p => if p = 0 then 1 / 4 else 3 / 4

/-- A face between cell `0` (inside) and cell `1` (outside): phase `0` flows outwards
with flux `1`, phase `1` flows inwards with flux `-1`; both phases are considered. -/
def sampleContext : Context where
  extensiveQuantities := fun _ _ =>
    { upstreamIndex := fun p => if p = 0 then 0 else 1
      volumeFlux := fun p => if p = 0 then 1 else -1
      interiorIndex := 0
      exteriorIndex := 1
      temperatureGradNormal := 20
      heatConductivity := 3
      fractureWidth := 1 / 10
      fractureVolumeFlux := fun p => if p = 0 then 2 else -3 }
  intensiveQuantities := fun dof _ =>
    { fluidState := sampleFluidState (if dof = 0 then 2 else 5)
      porosity := 1 / 5
      heatCapacitySolid := 800
      heatConductivity := if dof = 0 then 2 else 4 }
  phaseIsConsidered := fun _ => true
  interiorFaceArea := fun _ _ => 1 / 2

/-- The primary variables of one degree of freedom. -/
abbrev PrimaryVariables (numEq : Nat) := Fin numEq → ℚ

/-- The part of the `Model` the weights read: `solution(timeIdx)[globalDofIdx]`. -/
structure Model (numEq : Nat) where
  solution : Int → Int → PrimaryVariables numEq

/-- A sub-control volume, as far as the fracture storage reads it. -/
structure SubControlVolume where
  volume : ℚ

/-! ### The energy module with energy disabled -/

/-- Method `EnergyModule<TypeTag, false>::primaryVarName`. -/
def EnergyModuleDisabled.primaryVarName (_pvIdx : Int) : String := ""

/-- Method `EnergyModule<TypeTag, false>::eqName`. -/
def EnergyModuleDisabled.eqName (_eqIdx : Int) : String := ""

/-- Method `EnergyModule<TypeTag, false>::primaryVarWeight`. -/
def EnergyModuleDisabled.primaryVarWeight {numEq : Nat} (_model : Model numEq)
    (_globalDofIdx _pvIdx : Int) : ℚ := -1

/-- Method `EnergyModule<TypeTag, false>::eqWeight`. -/
def EnergyModuleDisabled.eqWeight {numEq : Nat} (_model : Model numEq)
    (_globalDofIdx _eqIdx : Int) : ℚ := -1

/-- Method `EnergyModule<TypeTag, false>::setPriVarTemperatures`. -/
def EnergyModuleDisabled.setPriVarTemperatures {numEq : Nat} (priVars : PrimaryVariables numEq)
    (_fs : FluidState) : PrimaryVariables numEq := priVars

/-- Method `EnergyModule<TypeTag, false>::setEnthalpyRate(rateVec, fluidState, phaseIdx, volume)`. -/
def EnergyModuleDisabled.setEnthalpyRateOfVolume {numEq : Nat} (rateVec : RateVector numEq)
    (_fluidState : FluidState) (_phaseIdx : Nat) (_volume : ℚ) : RateVector numEq := rateVec

/-- Method `EnergyModule<TypeTag, false>::setEnthalpyRate(rateVec, rate)`. -/
def EnergyModuleDisabled.setEnthalpyRate {numEq : Nat} (rateVec : RateVector numEq)
    (_rate : ℚ) : RateVector numEq := rateVec

/-- Method `EnergyModule<TypeTag, false>::addToEnthalpyRate`. -/
def EnergyModuleDisabled.addToEnthalpyRate {numEq : Nat} (rateVec : RateVector numEq)
    (_rate : ℚ) : RateVector numEq := rateVec

/-- Method `EnergyModule<TypeTag, false>::heatConductionRate`. -/
def EnergyModuleDisabled.heatConductionRate (_extQuants : ExtensiveQuantities) : ℚ := 0

/-- Method `EnergyModule<TypeTag, false>::addPhaseStorage`. -/
def EnergyModuleDisabled.addPhaseStorage {numEq : Nat} (storage : RateVector numEq)
    (_intQuants : IntensiveQuantities) (_phaseIdx : Nat) : RateVector numEq := storage

/-- Method `EnergyModule<TypeTag, false>::addFracturePhaseStorage`. -/
def EnergyModuleDisabled.addFracturePhaseStorage {numEq : Nat} (storage : RateVector numEq)
    (_intQuants : IntensiveQuantities) (_scv : SubControlVolume) (_phaseIdx : Nat) :
    RateVector numEq := storage

/-- Method `EnergyModule<TypeTag, false>::addSolidHeatStorage`. -/
def EnergyModuleDisabled.addSolidHeatStorage {numEq : Nat} (storage : RateVector numEq)
    (_intQuants : IntensiveQuantities) : RateVector numEq := storage

/-- Method `EnergyModule<TypeTag, false>::addAdvectiveFlux`. -/
def EnergyModuleDisabled.addAdvectiveFlux {numEq : Nat} (flux : RateVector numEq)
    (_context : Context) (_spaceIdx _timeIdx : Int) : RateVector numEq := flux

/-- Method `EnergyModule<TypeTag, false>::handleFractureFlux`. -/
def EnergyModuleDisabled.handleFractureFlux {numEq : Nat} (flux : RateVector numEq)
    (_context : Context) (_spaceIdx _timeIdx : Int) : RateVector numEq := flux

/-- Method `EnergyModule<TypeTag, false>::addDiffusiveFlux`. -/
def EnergyModuleDisabled.addDiffusiveFlux {numEq : Nat} (flux : RateVector numEq)
    (_context : Context) (_spaceIdx _timeIdx : Int) : RateVector numEq := flux

/-- What a call can end in instead of a value. -/
inductive Failure where
  /-- An `OPM_THROW(std::logic_error, message)`. -/
  | logicError (message : String)
  /-- A failed `assert(condition)`. -/
  | assertionFailed (condition : String)
  /-- A division by zero. -/
  | divisionByZero
  deriving DecidableEq, Repr

/-- The class `EnergyIntensiveQuantities<TypeTag, false>`: it stores nothing. -/
structure EnergyIntensiveQuantitiesDisabled where
  deriving DecidableEq

/-- Method `EnergyIntensiveQuantities<TypeTag, false>::heatCapacitySolid`. -/
def EnergyIntensiveQuantitiesDisabled.heatCapacitySolid
    (_self : EnergyIntensiveQuantitiesDisabled) : Except Failure ℚ :=
  Except.error (Failure.logicError
    "Method heatCapacitySolid() does not make sense for isothermal models")

/-- Method `EnergyIntensiveQuantities<TypeTag, false>::heatConductivity`. -/
def EnergyIntensiveQuantitiesDisabled.heatConductivity
    (_self : EnergyIntensiveQuantitiesDisabled) : Except Failure ℚ :=
  Except.error (Failure.logicError
    "Method heatConductivity() does not make sense for isothermal models")

/-- The class `EnergyExtensiveQuantities<TypeTag, false>`: it stores nothing. -/
structure EnergyExtensiveQuantitiesDisabled where
  deriving DecidableEq

/-- Method `EnergyExtensiveQuantities<TypeTag, false>::temperatureGradNormal`. -/
def EnergyExtensiveQuantitiesDisabled.temperatureGradNormal
    (_self : EnergyExtensiveQuantitiesDisabled) : Except Failure ℚ :=
  Except.error (Failure.logicError
    "Method temperatureGradNormal() does not make sense for isothermal models")

/-- Method `EnergyExtensiveQuantities<TypeTag, false>::heatConductivity`. -/
def EnergyExtensiveQuantitiesDisabled.heatConductivity
    (_self : EnergyExtensiveQuantitiesDisabled) : Except Failure ℚ :=
  Except.error (Failure.logicError
    "Method heatConductivity() does not make sense for isothermal models")

/-! ### The energy module with energy enabled -/

/-- Scalar division in the energy module; a zero denominator is a failure. -/
def ediv (a b : ℚ) : Except Failure ℚ :=
  if b = 0 then Except.error Failure.divisionByZero else Except.ok (a / b)

/-- Method `EnergyModule<TypeTag, true>::primaryVarName`. -/
def EnergyModule.primaryVarName (tt : TypeTag) (pvIdx : Int) : String :=
  if pvIdx = ((tt.temperatureIdx : Nat) : Int) then "temperature" else ""

/-- Method `EnergyModule<TypeTag, true>::eqName`. -/
def EnergyModule.eqName (tt : TypeTag) (eqIdx : Int) : String :=
  if eqIdx = ((tt.energyEqIdx : Nat) : Int) then "energy" else ""

/-- Method `EnergyModule<TypeTag, true>::heatConductionRate`. -/
def EnergyModule.heatConductionRate (extQuants : ExtensiveQuantities) : ℚ :=
  -extQuants.temperatureGradNormal * extQuants.heatConductivity

/-- Method `EnergyModule<TypeTag, true>::addDiffusiveFlux`. -/
def EnergyModule.addDiffusiveFlux (tt : TypeTag) (flux : RateVector tt.numEq)
    (context : Context) (spaceIdx timeIdx : Int) : RateVector tt.numEq :=
  let extQuants := context.extensiveQuantities spaceIdx timeIdx
  Function.update flux tt.energyEqIdx
    (flux tt.energyEqIdx
      + -extQuants.temperatureGradNormal
        * extQuants.heatConductivity)

/-- Body of the phase loop of `handleFractureFlux` for one `phaseIdx`. -/
def fracturePhase (tt : TypeTag) (context : Context) (extQuants : ExtensiveQuantities)
    (timeIdx : Int) (flux : RateVector tt.numEq) (phaseIdx : Nat) : RateVector tt.numEq :=
  if !context.phaseIsConsidered phaseIdx then flux
  else
    let up := context.intensiveQuantities (extQuants.upstreamIndex phaseIdx) timeIdx
    Function.update flux tt.energyEqIdx
      (flux tt.energyEqIdx
        + extQuants.fractureVolumeFlux phaseIdx
          * up.fluidState.enthalpy phaseIdx
          * up.fluidState.density phaseIdx)

/-- Method `EnergyModule<TypeTag, true>::handleFractureFlux`. -/
def EnergyModule.handleFractureFlux (tt : TypeTag) (flux : RateVector tt.numEq)
    (context : Context) (spaceIdx timeIdx : Int) : Except Failure (RateVector tt.numEq) := do
  let area := context.interiorFaceArea timeIdx spaceIdx
  let extQuants := context.extensiveQuantities spaceIdx timeIdx
  let ratio ← ediv extQuants.fractureWidth (2 * area)
  let flux := Function.update flux tt.energyEqIdx (flux tt.energyEqIdx * (1 - ratio))
  pure ((List.range tt.numPhases).foldl (fracturePhase tt context extQuants timeIdx) flux)

/-- A face of the stencil, interior or on the boundary. -/
structure StencilFace (dimWorld : Nat) where
  normal : Fin dimWorld → ℚ
  integrationPos : Fin dimWorld → ℚ
  interiorIndex : Int

/-- What `update_` and `updateBoundary_` read from the element context (for a
boundary, from the boundary context and the element context it wraps). -/
structure ElementContext (dimWorld : Nat) where
  /-- The vector `gradientCalculator().calculateGradient` returns for the face with the
  temperature callback. -/
  temperatureGrad : Int → Fin dimWorld → ℚ
  /-- Lookup `stencil(timeIdx).interiorFace(faceIdx)`. -/
  interiorFace : Int → Int → StencilFace dimWorld
  /-- Lookup `stencil(timeIdx).boundaryFace(bfIdx)`. -/
  boundaryFace : Int → Int → StencilFace dimWorld
  /-- Lookup `stencil(timeIdx).subControlVolume(scvIdx).geometry().center()`. -/
  scvCenter : Int → Int → Fin dimWorld → ℚ
  extensiveQuantities : Int → Int → ExtensiveQuantities
  intensiveQuantities : Int → Int → IntensiveQuantities

/-- The two members of `EnergyExtensiveQuantities<TypeTag, true>`. -/
structure EnergyExtensiveQuantities where
  temperatureGradNormal_ : ℚ
  heatConductivity_ : ℚ
  deriving DecidableEq

/-- Method `EnergyExtensiveQuantities<TypeTag, true>::update_`. -/
def EnergyExtensiveQuantities.update_ {dimWorld : Nat} (elemCtx : ElementContext dimWorld)
    (faceIdx timeIdx : Int) : EnergyExtensiveQuantities :=
  let temperatureGrad := elemCtx.temperatureGrad faceIdx
  let face := elemCtx.interiorFace 0 faceIdx
  let temperatureGradNormal := 0 + ∑ dimIdx, face.normal dimIdx * temperatureGrad dimIdx
  let extQuants := elemCtx.extensiveQuantities faceIdx timeIdx
  let intQuantsInside := elemCtx.intensiveQuantities extQuants.interiorIndex timeIdx
  let intQuantsOutside := elemCtx.intensiveQuantities extQuants.exteriorIndex timeIdx
  { temperatureGradNormal_ := temperatureGradNormal
    heatConductivity_ :=
      (1 / 2 : ℚ) * (intQuantsInside.heatConductivity + intQuantsOutside.heatConductivity) }

/-- The scalar `dist` of `updateBoundary_`: the vector from the center of the inside
sub-control volume to the integration point of the face, times the face normal. -/
def boundaryDist {dimWorld : Nat} (context : ElementContext dimWorld) (bfIdx timeIdx : Int) : ℚ :=
  let face := context.boundaryFace timeIdx bfIdx
  let insideScvIdx := face.interiorIndex
  let distVec := fun dimIdx => face.integrationPos dimIdx - context.scvCenter timeIdx insideScvIdx dimIdx
  0 + ∑ dimIdx, distVec dimIdx * face.normal dimIdx

/-- Method `EnergyExtensiveQuantities<TypeTag, true>::updateBoundary_`.  The argument
`assertionsEnabled` is false for a build with `NDEBUG`, in which `assert` expands to
nothing. -/
def EnergyExtensiveQuantities.updateBoundary_ {dimWorld : Nat} (assertionsEnabled : Bool)
    (context : ElementContext dimWorld) (bfIdx timeIdx : Int) (fs : FluidState) :
    Except Failure EnergyExtensiveQuantities := do
  let face := context.boundaryFace timeIdx bfIdx
  let insideScvIdx := face.interiorIndex
  let intQuantsInside := context.intensiveQuantities insideScvIdx timeIdx
  let fsInside := intQuantsInside.fluidState
  let dist := boundaryDist context bfIdx timeIdx
  if assertionsEnabled && !decide (dist > 0) then
    throw (Failure.assertionFailed "dist > 0")
  let temperatureGradNormal ← ediv (fs.temperature 0 - fsInside.temperature 0) dist
  pure { temperatureGradNormal_ := temperatureGradNormal
         heatConductivity_ := intQuantsInside.heatConductivity }

/-- A boundary fluid state at temperature `310`. -/
def boundaryFluidState : FluidState where
  temperature := fun _ => 310
  density := fun _ => 1
  enthalpy := fun _ => 1
  internalEnergy := fun _ => 1
  saturation := fun _ => 1 / 2

/-- A two-dimensional element around `sampleContext`: the inside sub-control volume has
its center at `(1/2, 1/2)`; boundary face `0` has its integration point at `(1, 1/2)`
and the outward normal `(1, 0)`, boundary face `1` is the same face with the inverted
normal `(-1, 0)`, and every other boundary face has the tangential normal `(0, 1)`. -/
def sampleElementContext : ElementContext 2 where
  temperatureGrad := fun _ => ![20, 5]
  interiorFace := fun _ _ =>
    { normal := ![1, 0], integrationPos := ![1, 1 / 2], interiorIndex := 0 }
  boundaryFace := fun _ bfIdx =>
    { normal := if bfIdx = 0 then ![1, 0] else if bfIdx = 1 then ![-1, 0] else ![0, 1]
      integrationPos := ![1, 1 / 2]
      interiorIndex := 0 }
  scvCenter := fun _ _ => ![1 / 2, 1 / 2]
  extensiveQuantities := sampleContext.extensiveQuantities
  intensiveQuantities := sampleContext.intensiveQuantities

/-! ### Weights, indices, temperatures and solid heat storage -/

/-- Method `EnergyModule<TypeTag, true>::primaryVarWeight`. -/
def EnergyModule.primaryVarWeight (tt : TypeTag) (model : Model tt.numEq)
    (globalDofIdx pvIdx : Int) : Except Failure ℚ :=
  if pvIdx ≠ ((tt.temperatureIdx : Nat) : Int) then Except.ok (-1)
  else do
    let inverse ← ediv 1 (model.solution 0 globalDofIdx tt.temperatureIdx)
    pure (max (1 / 1000) inverse)

/-- Method `EnergyModule<TypeTag, true>::eqWeight`. -/
def EnergyModule.eqWeight (tt : TypeTag) (_model : Model tt.numEq)
    (_globalDofIdx eqIdx : Int) : ℚ :=
  if eqIdx ≠ ((tt.energyEqIdx : Nat) : Int) then -1
  else 1 / 1.0035e3

/-- The constant `EnergyIndices<PVOffset, enableEnergy>::temperatureIdx`; the disabled
specialisation does not declare it. -/
def EnergyIndices.temperatureIdx (PVOffset : Int) (enableEnergy : Bool) : Option Int :=
  match enableEnergy with
  | false => none
  | true => some PVOffset

/-- The constant `EnergyIndices<PVOffset, enableEnergy>::energyEqIdx`; the disabled
specialisation does not declare it. -/
def EnergyIndices.energyEqIdx (PVOffset : Int) (enableEnergy : Bool) : Option Int :=
  match enableEnergy with
  | false => none
  | true => some PVOffset

/-- The constant `EnergyIndices<PVOffset, enableEnergy>::numEq_`. -/
def EnergyIndices.numEq_ (_PVOffset : Int) (enableEnergy : Bool) : Nat :=
  match enableEnergy with
  | false => 0
  | true => 1

/-- Method `EnergyModule<TypeTag, true>::setPriVarTemperatures`.  The loop of
assertions is present only when `assertionsEnabled` (no `NDEBUG`). -/
def EnergyModule.setPriVarTemperatures (tt : TypeTag) (assertionsEnabled : Bool)
    (priVars : PrimaryVariables tt.numEq) (fs : FluidState) :
    Except Failure (PrimaryVariables tt.numEq) := do
  let priVars := Function.update priVars tt.temperatureIdx (fs.temperature 0)
  if assertionsEnabled && !(List.range tt.numPhases).all
      (fun phaseIdx => decide (|fs.temperature 0 - fs.temperature phaseIdx| < 1e-30)) then
    throw (Failure.assertionFailed "std::abs(temperature(0) - temperature(phaseIdx)) < 1e-30")
  pure priVars

/-- Method `EnergyModule<TypeTag, true>::addSolidHeatStorage`. -/
def EnergyModule.addSolidHeatStorage (tt : TypeTag) (storage : RateVector tt.numEq)
    (intQuants : IntensiveQuantities) : RateVector tt.numEq :=
  Function.update storage tt.energyEqIdx
    (storage tt.energyEqIdx
      + intQuants.heatCapacitySolid
        * intQuants.fluidState.temperature 0)

/-- An `Evaluation` of the automatic-differentiation toolbox: a value together with
its derivatives with respect to the primary variables. -/
structure Evaluation (numEq : Nat) where
  value : ℚ
  derivatives : Fin numEq → ℚ

/-- Function `Toolbox::createVariable(value, varIdx)`: the value, with derivative `1`
with respect to the variable `varIdx` and `0` with respect to the others. -/
def Toolbox.createVariable {numEq : Nat} (value : ℚ) (varIdx : Fin numEq) : Evaluation numEq :=
  { value := value, derivatives := fun i => if i = varIdx then 1 else 0 }

/-- Function `Toolbox::createConstant(value)`: the value, with all derivatives `0`. -/
def Toolbox.createConstant {numEq : Nat} (value : ℚ) : Evaluation numEq :=
  { value := value, derivatives := fun _ => 0 }

/-- Function `Toolbox::value(evaluation)`. -/
def Toolbox.value {numEq : Nat} (evaluation : Evaluation numEq) : ℚ :=
  evaluation.value

/-- The temperatures of a fluid state that is filled with evaluations. -/
structure EvalFluidState (numEq : Nat) where
  temperature : Nat → Evaluation numEq

/-- Method `FluidState::setTemperature(value)`: one temperature for all phases. -/
def EvalFluidState.setTemperature {numEq : Nat} (_fluidState : EvalFluidState numEq)
    (value : Evaluation numEq) : EvalFluidState numEq :=
  { temperature := fun _ => value }

/-- Method `EnergyIntensiveQuantities<TypeTag, true>::updateTemperatures_`; `primaryVars`
is `context.primaryVars`. -/
def EnergyIntensiveQuantities.updateTemperatures_ (tt : TypeTag)
    (fluidState : EvalFluidState tt.numEq)
    (primaryVars : Int → Int → PrimaryVariables tt.numEq) (spaceIdx timeIdx : Int) :
    EvalFluidState tt.numEq :=
  let priVars := primaryVars spaceIdx timeIdx
  let val : Evaluation tt.numEq :=
    if timeIdx = 0 then Toolbox.createVariable (priVars tt.temperatureIdx) tt.temperatureIdx
    else Toolbox.createConstant (priVars tt.temperatureIdx)
  fluidState.setTemperature val

/-- A model whose solution holds the temperature `300` at degree of freedom `0`, the
temperature `2000` at degree of freedom `1` and `0` elsewhere. -/
def sampleModel : Model sampleTypeTag.numEq where
  solution := fun _ dof => fun _ => if dof = 0 then 300 else if dof = 1 then 2000 else 0

end Ewoms

/-! ## Capillary diffusion: auxiliary facts -/

namespace Dune

theorem sdiv_of_ne {a b : ℚ} (h : b ≠ 0) : sdiv a b = some (a / b) := by
  simp [sdiv, h]

theorem sdiv_zero_den (a : ℚ) : sdiv a 0 = none := by
  simp [sdiv]

theorem seqMatrix_of_some {dim : Nat} {f : Fin dim → Fin dim → Option ℚ} {g : FieldMatrix dim}
    (h : ∀ x y, f x y = some (g x y)) : seqMatrix f = some g := by
  have hs : ∀ x y, (f x y).isSome = true := fun x y => by simp [h x y]
  unfold seqMatrix
  rw [dif_pos hs]
  congr 1
  funext x y
  simp [h x y]

theorem seqMatrix_of_none {dim : Nat} {f : Fin dim → Fin dim → Option ℚ} {x y : Fin dim}
    (h : f x y = none) : seqMatrix f = none := by
  unfold seqMatrix
  rw [dif_neg]
  intro hs
  have := hs x y
  simp [h] at this

theorem harmonicEntry_both {a b : ℚ} (ha : a ≠ 0) (hb : b ≠ 0) (hab : a + b ≠ 0) :
    harmonicEntry a b = some (2 * a * b / (a + b)) := by
  simp [harmonicEntry, ha, hb, sdiv, hab]

theorem harmonicEntry_left_zero (b : ℚ) : harmonicEntry 0 b = some 0 := by
  simp [harmonicEntry]

theorem harmonicEntry_right_zero (a : ℚ) : harmonicEntry a 0 = some a := by
  simp [harmonicEntry]

/-- The combined tensor, entry by entry, when no entry pair cancels. -/
theorem harmonicMean_of_ne {dim : Nat} (K KJ : FieldMatrix dim)
    (hsum : ∀ x y, K x y ≠ 0 → KJ x y ≠ 0 → K x y + KJ x y ≠ 0) :
    harmonicMean K KJ = some (fun x y =>
      if K x y ≠ 0 ∧ KJ x y ≠ 0 then 2 * K x y * KJ x y / (K x y + KJ x y) else K x y) := by
  unfold harmonicMean
  apply seqMatrix_of_some
  intro x y
  by_cases h : K x y ≠ 0 ∧ KJ x y ≠ 0
  · rw [if_pos h, harmonicEntry_both h.1 h.2 (hsum x y h.1 h.2)]
  · rw [if_neg h]
    simp only [harmonicEntry, if_neg h]

/-- Value of `operator()` on a face with a neighbor, from the values of its parts. -/
theorem operatorCall_of_neighbor {dim : Nat} {Element Params : Type}
    (problem : Problem dim Element Params) (preComput : Bool)
    (element neighbor : Element) (indexInInside : Int) (satI satJ : ℚ)
    (pcGradient : FieldVector dim) (isIt : Intersection Element)
    (K : FieldMatrix dim) (wI nI wJ nJ l : ℚ)
    (hfind : (problem.intersections element).find?
      (fun is => is.indexInInside == indexInInside) = some isIt)
    (hout : isIt.outside = some neighbor)
    (hK : harmonicMean (problem.intrinsicPermeability element)
      (problem.intrinsicPermeability neighbor) = some K)
    (hI : selectMobilities problem preComput element satI = some (wI, nI))
    (hJ : selectMobilities problem preComput neighbor satJ = some (wJ, nJ))
    (hbar : mobBar ((1 / 2 : ℚ) * (wI + wJ)) ((1 / 2 : ℚ) * (nI + nJ)) = some l) :
    CapillaryDiffusion.operatorCall problem preComput element indexInInside satI satJ pcGradient
      = some (fun i => umv K pcGradient (fun _ => 0) i * l) := by
  have hbar2 := hbar
  simp only [one_div] at hbar2
  simp [CapillaryDiffusion.operatorCall, hfind, hout, hK, hI, hJ, hbar2]

/-- Value of `operator()` on a boundary face, from the values of its parts. -/
theorem operatorCall_of_boundary {dim : Nat} {Element Params : Type}
    (problem : Problem dim Element Params) (preComput : Bool)
    (element : Element) (indexInInside : Int) (satI satJ : ℚ)
    (pcGradient : FieldVector dim) (isIt : Intersection Element)
    (wI nI wJ nJ l : ℚ)
    (hfind : (problem.intersections element).find?
      (fun is => is.indexInInside == indexInInside) = some isIt)
    (hout : isIt.outside = none)
    (hI : selectMobilities problem preComput element satI = some (wI, nI))
    (hJ : computedMobilities problem element satJ = some (wJ, nJ))
    (hbar : mobBar ((1 / 2 : ℚ) * (wI + wJ)) ((1 / 2 : ℚ) * (nI + nJ)) = some l) :
    CapillaryDiffusion.operatorCall problem preComput element indexInInside satI satJ pcGradient
      = some (fun i =>
          umv (problem.intrinsicPermeability element) pcGradient (fun _ => 0) i * l) := by
  have hbar2 := hbar
  simp only [one_div] at hbar2
  simp [CapillaryDiffusion.operatorCall, hfind, hout, hI, hJ, hbar2]

/-- Where the two entries are both zero or both nonzero the combination does not
depend on the order. -/
theorem harmonicEntry_comm_of_pattern (a b : ℚ) (h : a = 0 ↔ b = 0) :
    harmonicEntry a b = harmonicEntry b a := by
  by_cases ha : a = 0
  · have hb : b = 0 := h.mp ha
    subst ha
    subst hb
    rfl
  · have hb : b ≠ 0 := fun hb => ha (h.mpr hb)
    have h2 : 2 * a * b = 2 * b * a := by ring
    simp [harmonicEntry, ha, hb, h2, add_comm a b]

theorem harmonicMean_comm_of_pattern {dim : Nat} (K KJ : FieldMatrix dim)
    (h : ∀ x y, K x y = 0 ↔ KJ x y = 0) : harmonicMean K KJ = harmonicMean KJ K := by
  unfold harmonicMean
  congr 1
  funext x y
  exact harmonicEntry_comm_of_pattern _ _ (h x y)

/-- On a face with a neighbor `operator()` is the composition of its four partial steps. -/
theorem operatorCall_neighbor_parts {dim : Nat} {Element Params : Type}
    (problem : Problem dim Element Params) (preComput : Bool)
    (element neighbor : Element) (indexInInside : Int) (satI satJ : ℚ)
    (pcGradient : FieldVector dim) (isIt : Intersection Element)
    (hfind : (problem.intersections element).find?
      (fun is => is.indexInInside == indexInInside) = some isIt)
    (hout : isIt.outside = some neighbor) :
    CapillaryDiffusion.operatorCall problem preComput element indexInInside satI satJ pcGradient
      = (selectMobilities problem preComput element satI).bind fun mI =>
          (harmonicMean (problem.intrinsicPermeability element)
            (problem.intrinsicPermeability neighbor)).bind fun K =>
          (selectMobilities problem preComput neighbor satJ).bind fun mJ =>
          (mobBar ((1 / 2 : ℚ) * (mI.1 + mJ.1)) ((1 / 2 : ℚ) * (mI.2 + mJ.2))).bind fun l =>
          some (fun i => umv K pcGradient (fun _ => 0) i * l) := by
  unfold CapillaryDiffusion.operatorCall
  simp only [hfind, hout, Option.bind_eq_bind, Option.some_bind, Option.pure_def]

theorem umv_neg {dim : Nat} (K : FieldMatrix dim) (g : FieldVector dim) (i : Fin dim) :
    umv K (fun k => - g k) (fun _ => 0) i = - umv K g (fun _ => 0) i := by
  simp [umv, Finset.sum_neg_distrib]

/-- When the permeability tensors of two adjacent cells vanish in the same positions,
the evaluation from the neighbor with saturations exchanged and gradient negated is
the negative of the evaluation from the inside (and one has no value exactly when
the other has none). -/
theorem operatorCall_antisymm_of_pattern {dim : Nat} {Element Params : Type}
    (problem : Problem dim Element Params) (preComput : Bool)
    (elementI elementJ : Element) (indexI indexJ : Int) (satI satJ : ℚ)
    (pcGradient : FieldVector dim) (isI isJ : Intersection Element)
    (hfindI : (problem.intersections elementI).find?
      (fun is => is.indexInInside == indexI) = some isI)
    (houtI : isI.outside = some elementJ)
    (hfindJ : (problem.intersections elementJ).find?
      (fun is => is.indexInInside == indexJ) = some isJ)
    (houtJ : isJ.outside = some elementI)
    (hpat : ∀ x y, problem.intrinsicPermeability elementI x y = 0
      ↔ problem.intrinsicPermeability elementJ x y = 0) :
    CapillaryDiffusion.operatorCall problem preComput elementI indexI satI satJ pcGradient
      = (CapillaryDiffusion.operatorCall problem preComput elementJ indexJ satJ satI
          (fun k => - pcGradient k)).map (fun v k => - v k) := by
  rw [operatorCall_neighbor_parts problem preComput elementI elementJ indexI satI satJ
      pcGradient isI hfindI houtI,
    operatorCall_neighbor_parts problem preComput elementJ elementI indexJ satJ satI
      _ isJ hfindJ houtJ,
    ← harmonicMean_comm_of_pattern _ _ hpat]
  rcases selectMobilities problem preComput elementI satI with _ | ⟨wI, nI⟩ <;>
  rcases selectMobilities problem preComput elementJ satJ with _ | ⟨wJ, nJ⟩ <;>
  rcases harmonicMean (problem.intrinsicPermeability elementI)
    (problem.intrinsicPermeability elementJ) with _ | K <;>
  simp only [Option.some_bind, Option.none_bind, Option.map_none', Option.map_some']
  rw [add_comm wJ wI, add_comm nJ nI]
  rcases mobBar ((1 / 2 : ℚ) * (wI + wJ)) ((1 / 2 : ℚ) * (nI + nJ)) with _ | l
  · rfl
  · simp only [Option.some_bind, Option.map_some', umv_neg]
    congr 1
    funext i
    ring

theorem twoCell_find_inside :
    (twoCellProblem.intersections 0).find? (fun is => is.indexInInside == 1)
      = some ⟨1, some 1⟩ := by
  simp [twoCellProblem]

theorem twoCell_find_boundary :
    (twoCellProblem.intersections 0).find? (fun is => is.indexInInside == 0)
      = some ⟨0, none⟩ := by
  simp [twoCellProblem]

theorem twoCell_no_cancel (e e2 : Fin 2) (x y : Fin 2) :
    twoCellProblem.intrinsicPermeability e x y ≠ 0 →
      twoCellProblem.intrinsicPermeability e2 x y ≠ 0 →
      twoCellProblem.intrinsicPermeability e x y + twoCellProblem.intrinsicPermeability e2 x y
        ≠ 0 := by
  fin_cases x <;> fin_cases y <;> norm_num [twoCellProblem]

theorem twoCell_harmonicMean (e e2 : Fin 2) :
    harmonicMean (twoCellProblem.intrinsicPermeability e) (twoCellProblem.intrinsicPermeability e2)
      = some ![![1e-12, 0], ![0, 1e-12]] := by
  apply seqMatrix_of_some
  intro x y
  fin_cases x <;> fin_cases y <;> norm_num [twoCellProblem, harmonicEntry, sdiv]

theorem twoCell_cached (e : Fin 2) (sat : ℚ) :
    selectMobilities twoCellProblem true e sat = some (1 / 2, 1 / 2) := by
  simp [selectMobilities, cachedMobilities, twoCellProblem]

theorem twoCell_computed (e : Fin 2) :
    computedMobilities twoCellProblem e (1 / 2) = some (1 / 2, 1 / 2) := by
  simp [computedMobilities, twoCellProblem, sdiv]
  norm_num

theorem twoCell_mobilities (preComput : Bool) (e : Fin 2) :
    selectMobilities twoCellProblem preComput e (1 / 2) = some (1 / 2, 1 / 2) := by
  cases preComput
  · simpa [selectMobilities] using twoCell_computed e
  · exact twoCell_cached e _

theorem harmonicMean_sealed_parts :
    harmonicMean (sealedProblem.intrinsicPermeability 0) (sealedProblem.intrinsicPermeability 1)
        = some ![![1, 0], ![0, 1]]
      ∧ harmonicMean (sealedProblem.intrinsicPermeability 1)
          (sealedProblem.intrinsicPermeability 0) = some ![![0, 0], ![0, 1]] := by
  constructor
  · apply seqMatrix_of_some
    intro x y
    fin_cases x <;> fin_cases y <;> norm_num [sealedProblem, harmonicEntry, sdiv]
  · apply seqMatrix_of_some
    intro x y
    fin_cases x <;> fin_cases y <;> norm_num [sealedProblem, harmonicEntry, sdiv]

end Dune

/-! ## Capillary diffusion: the permeability combination -/

namespace Dune

/-- C1: the combination is not symmetric: with inside entry `1` and neighbor entry
`0` the entry stays `1`, with inside entry `0` and neighbor entry `1` it stays `0`. -/
theorem harmonicEntry_order_matters :
    harmonicEntry 1 0 = some 1 ∧ harmonicEntry 0 1 = some 0
      ∧ harmonicEntry 1 0 ≠ harmonicEntry 0 1 := by
  refine ⟨harmonicEntry_right_zero _, harmonicEntry_left_zero _, ?_⟩
  rw [harmonicEntry_right_zero, harmonicEntry_left_zero]
  norm_num

/-- C2: a nonzero inside entry combined with a zero neighbor entry stays the inside
entry (it does not become zero); a zero inside entry stays zero. -/
theorem harmonicEntry_zero_neighbor :
    harmonicEntry 1e-12 0 = some 1e-12 ∧ harmonicEntry 1e-12 0 ≠ some 0
      ∧ harmonicEntry 0 1e-12 = some 0 := by
  refine ⟨harmonicEntry_right_zero _, ?_, harmonicEntry_left_zero _⟩
  rw [harmonicEntry_right_zero]
  norm_num

/-! ## Capillary diffusion: the flux on a face -/

theorem sealed_find_inside :
    (sealedProblem.intersections 0).find? (fun is => is.indexInInside == 1)
      = some ⟨1, some 1⟩ := by
  simp [sealedProblem]

theorem sealed_find_neighbor :
    (sealedProblem.intersections 1).find? (fun is => is.indexInInside == 0)
      = some ⟨0, some 0⟩ := by
  simp [sealedProblem]

theorem sealed_mobilities (preComput : Bool) (e : Fin 2) :
    selectMobilities sealedProblem preComput e (1 / 2) = some (1 / 2, 1 / 2) := by
  cases preComput
  · simp [selectMobilities, computedMobilities, sealedProblem, sdiv]
    norm_num
  · simp [selectMobilities, cachedMobilities, sealedProblem]

theorem mobBar_half : mobBar ((1 / 2 : ℚ) * (1 / 2 + 1 / 2)) ((1 / 2 : ℚ) * (1 / 2 + 1 / 2))
    = some (1 / 4) := by
  norm_num [mobBar, sdiv]

/-- C3: on `sealedProblem`, in either mobility mode, the face between cells `0` and `1`
evaluated from cell `0` with gradient `(1, 0)` gives `(1/4, 0)`, while the evaluation
from cell `1` with the saturations exchanged and the gradient negated gives `(0, 0)`,
whose negative is not `(1/4, 0)`. -/
theorem operatorCall_sealed_both_sides (preComput : Bool) :
    CapillaryDiffusion.operatorCall sealedProblem preComput 0 1 (1 / 2) (1 / 2) ![1, 0]
        = some ![1 / 4, 0]
      ∧ CapillaryDiffusion.operatorCall sealedProblem preComput 1 0 (1 / 2) (1 / 2) ![-1, 0]
        = some ![0, 0] := by
  constructor
  · rw [operatorCall_of_neighbor sealedProblem preComput 0 1 1 (1 / 2) (1 / 2) ![1, 0]
      ⟨1, some 1⟩ ![![1, 0], ![0, 1]] (1 / 2) (1 / 2) (1 / 2) (1 / 2) (1 / 4)
      sealed_find_inside rfl harmonicMean_sealed_parts.1 (sealed_mobilities _ _)
      (sealed_mobilities _ _) mobBar_half]
    congr 1
    funext i
    fin_cases i <;> simp [umv, Fin.sum_univ_two]
  · rw [operatorCall_of_neighbor sealedProblem preComput 1 0 0 (1 / 2) (1 / 2) ![-1, 0]
      ⟨0, some 0⟩ ![![0, 0], ![0, 1]] (1 / 2) (1 / 2) (1 / 2) (1 / 2) (1 / 4)
      sealed_find_neighbor rfl harmonicMean_sealed_parts.2 (sealed_mobilities _ _)
      (sealed_mobilities _ _) mobBar_half]
    congr 1
    funext i
    fin_cases i <;> simp [umv, Fin.sum_univ_two]

/-- C4: on a face with a neighbor, when no pair of nonzero permeability entries cancels,
the selected mobilities exist and the mean mobilities do not sum to zero, `operator()`
returns `lambdaBar * (K * pcGradient)`: every entry of `K` is `2ab/(a+b)` where both
entries are nonzero (and the inside entry otherwise), the mobilities are the arithmetic
means `0.5 * (inside + neighbor)`, and `lambdaBar = meanW * meanN / (meanW + meanN)`. -/
theorem operatorCall_interior_formula {dim : Nat} {Element Params : Type}
    (problem : Problem dim Element Params) (preComput : Bool)
    (element neighbor : Element) (indexInInside : Int) (satI satJ : ℚ)
    (pcGradient : FieldVector dim) (isIt : Intersection Element) (wI nI wJ nJ : ℚ)
    (hfind : (problem.intersections element).find?
      (fun is => is.indexInInside == indexInInside) = some isIt)
    (hout : isIt.outside = some neighbor)
    (hsum : ∀ x y, problem.intrinsicPermeability element x y ≠ 0 →
      problem.intrinsicPermeability neighbor x y ≠ 0 →
      problem.intrinsicPermeability element x y + problem.intrinsicPermeability neighbor x y ≠ 0)
    (hI : selectMobilities problem preComput element satI = some (wI, nI))
    (hJ : selectMobilities problem preComput neighbor satJ = some (wJ, nJ))
    (hden : (1 / 2 : ℚ) * (wI + wJ) + (1 / 2 : ℚ) * (nI + nJ) ≠ 0) :
    ∃ K : FieldMatrix dim,
      (∀ x y, problem.intrinsicPermeability element x y ≠ 0 →
        problem.intrinsicPermeability neighbor x y ≠ 0 →
        K x y = 2 * problem.intrinsicPermeability element x y
          * problem.intrinsicPermeability neighbor x y
          / (problem.intrinsicPermeability element x y
              + problem.intrinsicPermeability neighbor x y))
      ∧ (∀ x y, (problem.intrinsicPermeability element x y = 0 ∨
          problem.intrinsicPermeability neighbor x y = 0) →
          K x y = problem.intrinsicPermeability element x y)
      ∧ CapillaryDiffusion.operatorCall problem preComput element indexInInside satI satJ
          pcGradient
        = some (fun i =>
            ((1 / 2 : ℚ) * (wI + wJ)) * ((1 / 2 : ℚ) * (nI + nJ))
              / ((1 / 2 : ℚ) * (wI + wJ) + (1 / 2 : ℚ) * (nI + nJ))
              * ∑ j, K i j * pcGradient j) := by
  refine ⟨fun x y =>
      if problem.intrinsicPermeability element x y ≠ 0
          ∧ problem.intrinsicPermeability neighbor x y ≠ 0 then
        2 * problem.intrinsicPermeability element x y
          * problem.intrinsicPermeability neighbor x y
          / (problem.intrinsicPermeability element x y
              + problem.intrinsicPermeability neighbor x y)
      else problem.intrinsicPermeability element x y, ?_, ?_, ?_⟩
  · intro x y ha hb
    simp only [if_pos (And.intro ha hb)]
  · intro x y h
    have hn : ¬ (problem.intrinsicPermeability element x y ≠ 0
        ∧ problem.intrinsicPermeability neighbor x y ≠ 0) := by
      rintro ⟨ha, hb⟩
      rcases h with h | h
      · exact ha h
      · exact hb h
    simp only [if_neg hn]
  · rw [operatorCall_of_neighbor problem preComput element neighbor indexInInside satI satJ
      pcGradient isIt _ wI nI wJ nJ _ hfind hout (harmonicMean_of_ne _ _ hsum) hI hJ
      (sdiv_of_ne hden)]
    congr 1
    funext i
    simp only [umv, zero_add]
    rw [mul_comm]

/-- C5 (refuted as stated): with both mean mobilities zero the coefficient is `0/0`
and has no value, so it is neither `>= 0` nor `== 0`. -/
theorem mobBar_zero_zero :
    mobBar 0 0 = none ∧ mobBar 0 0 ≠ some 0 ∧ ¬ ∃ l, mobBar 0 0 = some l ∧ 0 ≤ l := by
  have h : mobBar 0 0 = none := by simp [mobBar, sdiv]
  refine ⟨h, ?_, ?_⟩
  · rw [h]
    exact fun hc => Option.noConfusion hc
  · rintro ⟨l, hl, _⟩
    rw [h] at hl
    exact Option.noConfusion hl

/-- C5 (amended): when the mean mobilities do not sum to zero, `mobBar` has a value;
that value is `>= 0` when both mobilities are `>= 0`, and it is `0` when either
mobility is `0`. -/
theorem mobBar_nonneg_and_zero (w n : ℚ) (hsum : w + n ≠ 0) :
    ∃ l, mobBar w n = some l ∧ (0 ≤ w → 0 ≤ n → 0 ≤ l) ∧ (w = 0 ∨ n = 0 → l = 0) := by
  refine ⟨w * n / (w + n), sdiv_of_ne hsum, ?_, ?_⟩
  · intro hw hn
    exact div_nonneg (mul_nonneg hw hn) (add_nonneg hw hn)
  · rintro (h | h) <;> simp [h]

theorem mobBar_nonneg_and_zero_witness :
    ∃ l, mobBar (1 / 2) 0 = some l ∧ ((0 : ℚ) ≤ 1 / 2 → (0 : ℚ) ≤ 0 → 0 ≤ l)
      ∧ ((1 / 2 : ℚ) = 0 ∨ (0 : ℚ) = 0 → l = 0) :=
  mobBar_nonneg_and_zero (1 / 2) 0 (by norm_num)

theorem operatorCall_interior_formula_witness :
    ∃ K : FieldMatrix 2,
      (∀ x y, twoCellProblem.intrinsicPermeability 0 x y ≠ 0 →
        twoCellProblem.intrinsicPermeability 1 x y ≠ 0 →
        K x y = 2 * twoCellProblem.intrinsicPermeability 0 x y
          * twoCellProblem.intrinsicPermeability 1 x y
          / (twoCellProblem.intrinsicPermeability 0 x y
              + twoCellProblem.intrinsicPermeability 1 x y))
      ∧ (∀ x y, (twoCellProblem.intrinsicPermeability 0 x y = 0 ∨
          twoCellProblem.intrinsicPermeability 1 x y = 0) →
          K x y = twoCellProblem.intrinsicPermeability 0 x y)
      ∧ CapillaryDiffusion.operatorCall twoCellProblem false 0 1 (1 / 2) (1 / 2) ![1000, 0]
        = some (fun i =>
            ((1 / 2 : ℚ) * (1 / 2 + 1 / 2)) * ((1 / 2 : ℚ) * (1 / 2 + 1 / 2))
              / ((1 / 2 : ℚ) * (1 / 2 + 1 / 2) + (1 / 2 : ℚ) * (1 / 2 + 1 / 2))
              * ∑ j, K i j * ![1000, 0] j) :=
  operatorCall_interior_formula twoCellProblem false 0 1 1 (1 / 2) (1 / 2) ![1000, 0]
    ⟨1, some 1⟩ (1 / 2) (1 / 2) (1 / 2) (1 / 2) twoCell_find_inside rfl
    (twoCell_no_cancel 0 1) (twoCell_mobilities false 0) (twoCell_mobilities false 1)
    (by norm_num)

/-- C6: the two-cell example.  Permeability `1e-12` on both sides combines to `1e-12`,
the mobilities `0.5` on both sides have means `0.5`, `lambdaBar` is `0.25`, and for
`pcGradient = (1000, 0)` the returned vector is `(2.5e-10, 0)`, with cached mobilities
(for all saturations) and with mobilities recomputed at saturation `0.5`. -/
theorem operatorCall_twoCell_example (satI satJ : ℚ) :
    harmonicMean (twoCellProblem.intrinsicPermeability 0) (twoCellProblem.intrinsicPermeability 1)
        = some ![![1e-12, 0], ![0, 1e-12]]
      ∧ selectMobilities twoCellProblem true 0 satI = some (1 / 2, 1 / 2)
      ∧ selectMobilities twoCellProblem true 1 satJ = some (1 / 2, 1 / 2)
      ∧ selectMobilities twoCellProblem false 0 (1 / 2) = some (1 / 2, 1 / 2)
      ∧ selectMobilities twoCellProblem false 1 (1 / 2) = some (1 / 2, 1 / 2)
      ∧ (1 / 2 : ℚ) * (1 / 2 + 1 / 2) = 1 / 2
      ∧ mobBar (1 / 2) (1 / 2) = some (1 / 4)
      ∧ CapillaryDiffusion.operatorCall twoCellProblem true 0 1 satI satJ ![1000, 0]
          = some ![2.5e-10, 0]
      ∧ CapillaryDiffusion.operatorCall twoCellProblem false 0 1 (1 / 2) (1 / 2) ![1000, 0]
          = some ![2.5e-10, 0] := by
  refine ⟨twoCell_harmonicMean 0 1, twoCell_cached 0 satI, twoCell_cached 1 satJ,
    twoCell_mobilities false 0, twoCell_mobilities false 1, by norm_num,
    by norm_num [mobBar, sdiv], ?_, ?_⟩
  · rw [operatorCall_of_neighbor twoCellProblem true 0 1 1 satI satJ ![1000, 0]
      ⟨1, some 1⟩ ![![1e-12, 0], ![0, 1e-12]] (1 / 2) (1 / 2) (1 / 2) (1 / 2) (1 / 4)
      twoCell_find_inside rfl (twoCell_harmonicMean 0 1) (twoCell_cached 0 satI)
      (twoCell_cached 1 satJ) mobBar_half]
    congr 1
    funext i
    fin_cases i <;> norm_num [umv, Fin.sum_univ_two]
  · rw [operatorCall_of_neighbor twoCellProblem false 0 1 1 (1 / 2) (1 / 2) ![1000, 0]
      ⟨1, some 1⟩ ![![1e-12, 0], ![0, 1e-12]] (1 / 2) (1 / 2) (1 / 2) (1 / 2) (1 / 4)
      twoCell_find_inside rfl (twoCell_harmonicMean 0 1) (twoCell_mobilities false 0)
      (twoCell_mobilities false 1) mobBar_half]
    congr 1
    funext i
    fin_cases i <;> norm_num [umv, Fin.sum_univ_two]

/-- C7: on a boundary face (no neighbor) `operator()` multiplies the unmodified inside
permeability tensor with `pcGradient`; the outside mobilities are
`krw(insideParams, satJ) / viscosity_w` and `krn(insideParams, satJ) / viscosity_n`
whatever `preComput` is, and `lambdaBar` is formed from the arithmetic means of the
inside and these boundary mobilities. -/
theorem operatorCall_boundary_formula {dim : Nat} {Element Params : Type}
    (problem : Problem dim Element Params) (preComput : Bool)
    (element : Element) (indexInInside : Int) (satI satJ : ℚ)
    (pcGradient : FieldVector dim) (isIt : Intersection Element) (wI nI wJ nJ : ℚ)
    (hfind : (problem.intersections element).find?
      (fun is => is.indexInInside == indexInInside) = some isIt)
    (hout : isIt.outside = none)
    (hI : selectMobilities problem preComput element satI = some (wI, nI))
    (hvw : problem.phaseViscosity PhaseIdx.wPhaseIdx ⟨problem.temperature element⟩ ≠ 0)
    (hvn : problem.phaseViscosity PhaseIdx.nPhaseIdx ⟨problem.temperature element⟩ ≠ 0)
    (hwJ : wJ = problem.krw (problem.materialLawParams element) satJ
      / problem.phaseViscosity PhaseIdx.wPhaseIdx ⟨problem.temperature element⟩)
    (hnJ : nJ = problem.krn (problem.materialLawParams element) satJ
      / problem.phaseViscosity PhaseIdx.nPhaseIdx ⟨problem.temperature element⟩)
    (hden : (1 / 2 : ℚ) * (wI + wJ) + (1 / 2 : ℚ) * (nI + nJ) ≠ 0) :
    CapillaryDiffusion.operatorCall problem preComput element indexInInside satI satJ pcGradient
      = some (fun i =>
          ((1 / 2 : ℚ) * (wI + wJ)) * ((1 / 2 : ℚ) * (nI + nJ))
            / ((1 / 2 : ℚ) * (wI + wJ) + (1 / 2 : ℚ) * (nI + nJ))
            * ∑ j, problem.intrinsicPermeability element i j * pcGradient j) := by
  have hJ : computedMobilities problem element satJ = some (wJ, nJ) := by
    simp [computedMobilities, PhaseState.update, sdiv_of_ne hvw, sdiv_of_ne hvn, hwJ, hnJ]
  rw [operatorCall_of_boundary problem preComput element indexInInside satI satJ pcGradient
    isIt wI nI wJ nJ _ hfind hout hI hJ (sdiv_of_ne hden)]
  congr 1
  funext i
  simp only [umv, zero_add]
  rw [mul_comm]

theorem operatorCall_boundary_formula_witness :
    CapillaryDiffusion.operatorCall twoCellProblem true 0 0 (1 / 3) (1 / 4) ![1000, 0]
      = some (fun i =>
          ((1 / 2 : ℚ) * (1 / 2 + 1 / 4)) * ((1 / 2 : ℚ) * (1 / 2 + 3 / 4))
            / ((1 / 2 : ℚ) * (1 / 2 + 1 / 4) + (1 / 2 : ℚ) * (1 / 2 + 3 / 4))
            * ∑ j, twoCellProblem.intrinsicPermeability 0 i j * ![1000, 0] j) :=
  operatorCall_boundary_formula twoCellProblem true 0 0 (1 / 3) (1 / 4) ![1000, 0]
    ⟨0, none⟩ (1 / 2) (1 / 2) (1 / 4) (3 / 4) twoCell_find_boundary rfl
    (twoCell_cached 0 _) (by simp [twoCellProblem]) (by simp [twoCellProblem])
    (by norm_num [twoCellProblem]) (by norm_num [twoCellProblem]) (by norm_num)

end Dune

/-! ## Energy module: advective flux and storage -/

namespace Ewoms

theorem advectivePhase_other (tt : TypeTag) (context : Context) (extQuants : ExtensiveQuantities)
    (timeIdx : Int) (flux : RateVector tt.numEq) (phaseIdx : Nat) (i : Fin tt.numEq)
    (hi : i ≠ tt.energyEqIdx) :
    advectivePhase tt context extQuants timeIdx flux phaseIdx i = flux i := by
  unfold advectivePhase
  split
  · rfl
  · simp [Function.update_noteq hi]

theorem advectivePhase_energy (tt : TypeTag) (context : Context) (extQuants : ExtensiveQuantities)
    (timeIdx : Int) (flux : RateVector tt.numEq) (phaseIdx : Nat) :
    advectivePhase tt context extQuants timeIdx flux phaseIdx tt.energyEqIdx
      = flux tt.energyEqIdx
        + (if context.phaseIsConsidered phaseIdx = true then
            extQuants.volumeFlux phaseIdx
              * (context.intensiveQuantities (extQuants.upstreamIndex phaseIdx)
                  timeIdx).fluidState.enthalpy phaseIdx
              * (context.intensiveQuantities (extQuants.upstreamIndex phaseIdx)
                  timeIdx).fluidState.density phaseIdx
          else 0) := by
  unfold advectivePhase
  cases h : context.phaseIsConsidered phaseIdx <;> simp

/-- The phase loop over `0 .. n-1`, component by component. -/
theorem foldl_advectivePhase (tt : TypeTag) (context : Context)
    (extQuants : ExtensiveQuantities) (timeIdx : Int) (n : Nat) (flux : RateVector tt.numEq) :
    (∀ i, i ≠ tt.energyEqIdx →
        (List.range n).foldl (advectivePhase tt context extQuants timeIdx) flux i = flux i)
      ∧ (List.range n).foldl (advectivePhase tt context extQuants timeIdx) flux tt.energyEqIdx
        = flux tt.energyEqIdx
          + ∑ p in Finset.range n,
              (if context.phaseIsConsidered p = true then
                extQuants.volumeFlux p
                  * (context.intensiveQuantities (extQuants.upstreamIndex p)
                      timeIdx).fluidState.enthalpy p
                  * (context.intensiveQuantities (extQuants.upstreamIndex p)
                      timeIdx).fluidState.density p
              else 0) := by
  induction n with
  | zero => simp
  | succ n ih =>
    rw [List.range_succ, List.foldl_append]
    simp only [List.foldl_cons, List.foldl_nil]
    constructor
    · intro i hi
      rw [advectivePhase_other _ _ _ _ _ _ i hi]
      exact ih.1 i hi
    · rw [advectivePhase_energy, ih.2, Finset.sum_range_succ, add_assoc]

/-- The upwinded cache selects the inside cell for a positive flux and the outside cell
for a negative one; at zero flux the summand vanishes whatever cell is selected. -/
theorem upwind_summand (context : Context) (extQuants : ExtensiveQuantities) (timeIdx : Int)
    (p : Nat) :
    extQuants.withUpwindIndex.volumeFlux p
        * (context.intensiveQuantities (extQuants.withUpwindIndex.upstreamIndex p)
            timeIdx).fluidState.enthalpy p
        * (context.intensiveQuantities (extQuants.withUpwindIndex.upstreamIndex p)
            timeIdx).fluidState.density p
      = extQuants.volumeFlux p
        * (context.intensiveQuantities
            (if 0 < extQuants.volumeFlux p then extQuants.interiorIndex
              else extQuants.exteriorIndex) timeIdx).fluidState.enthalpy p
        * (context.intensiveQuantities
            (if 0 < extQuants.volumeFlux p then extQuants.interiorIndex
              else extQuants.exteriorIndex) timeIdx).fluidState.density p := by
  simp only [ExtensiveQuantities.withUpwindIndex, upstreamIndexOfFlux, gt_iff_lt]
  rcases lt_trichotomy (extQuants.volumeFlux p) 0 with hv | hv | hv
  · simp only [if_neg (not_lt.mpr hv.le), if_pos hv]
  · rw [hv]
    simp
  · simp only [if_pos hv]

/-- The sum `addAdvectiveFlux` adds on a face whose cache is upwinded. -/
theorem addAdvectiveFlux_upwind_sum (tt : TypeTag) (flux : RateVector tt.numEq)
    (context : Context) (spaceIdx timeIdx : Int) :
    EnergyModule.addAdvectiveFlux tt flux context.withUpwindCache spaceIdx timeIdx
        tt.energyEqIdx
      = flux tt.energyEqIdx
        + ∑ p in Finset.range tt.numPhases,
            (if context.phaseIsConsidered p = true then
              (context.extensiveQuantities spaceIdx timeIdx).volumeFlux p
                * (context.intensiveQuantities
                    (if 0 < (context.extensiveQuantities spaceIdx timeIdx).volumeFlux p then
                      (context.extensiveQuantities spaceIdx timeIdx).interiorIndex
                    else (context.extensiveQuantities spaceIdx timeIdx).exteriorIndex)
                    timeIdx).fluidState.enthalpy p
                * (context.intensiveQuantities
                    (if 0 < (context.extensiveQuantities spaceIdx timeIdx).volumeFlux p then
                      (context.extensiveQuantities spaceIdx timeIdx).interiorIndex
                    else (context.extensiveQuantities spaceIdx timeIdx).exteriorIndex)
                    timeIdx).fluidState.density p
            else 0) := by
  unfold EnergyModule.addAdvectiveFlux
  rw [(foldl_advectivePhase tt context.withUpwindCache _ timeIdx tt.numPhases flux).2]
  congr 1
  apply Finset.sum_congr rfl
  intro p _
  by_cases hc : context.phaseIsConsidered p = true
  · have hc2 : context.withUpwindCache.phaseIsConsidered p = true := hc
    rw [if_pos hc, if_pos hc2]
    exact upwind_summand context (context.extensiveQuantities spaceIdx timeIdx) timeIdx p
  · have hc2 : ¬ context.withUpwindCache.phaseIsConsidered p = true := hc
    rw [if_neg hc, if_neg hc2]

/-- Switching one phase of the loop on and off changes a sum over the considered
phases by the summand of that phase. -/
theorem sum_considering_sub (considered : Nat → Bool) (term : Nat → ℚ) (n phaseIdx : Nat)
    (hphase : phaseIdx < n) :
    (∑ p in Finset.range n,
        (if Function.update considered phaseIdx true p = true then term p else 0))
      - (∑ p in Finset.range n,
        (if Function.update considered phaseIdx false p = true then term p else 0))
      = term phaseIdx := by
  rw [← Finset.sum_sub_distrib]
  rw [Finset.sum_eq_single phaseIdx]
  · simp
  · intro p _ hp
    simp [Function.update_noteq hp]
  · intro h
    exact absurd (Finset.mem_range.mpr hphase) h

/-- The contribution of one phase to `addAdvectiveFlux` on an upwinded face: the
difference between the results with that phase considered and not considered. -/
theorem addAdvectiveFlux_considering_sub (tt : TypeTag) (flux : RateVector tt.numEq)
    (context : Context) (spaceIdx timeIdx : Int) (phaseIdx : Nat)
    (hphase : phaseIdx < tt.numPhases) :
    EnergyModule.addAdvectiveFlux tt flux (context.considering phaseIdx true).withUpwindCache
          spaceIdx timeIdx tt.energyEqIdx
        - EnergyModule.addAdvectiveFlux tt flux
            (context.considering phaseIdx false).withUpwindCache spaceIdx timeIdx tt.energyEqIdx
      = (context.extensiveQuantities spaceIdx timeIdx).volumeFlux phaseIdx
        * (context.intensiveQuantities
            (if 0 < (context.extensiveQuantities spaceIdx timeIdx).volumeFlux phaseIdx then
              (context.extensiveQuantities spaceIdx timeIdx).interiorIndex
            else (context.extensiveQuantities spaceIdx timeIdx).exteriorIndex)
            timeIdx).fluidState.enthalpy phaseIdx
        * (context.intensiveQuantities
            (if 0 < (context.extensiveQuantities spaceIdx timeIdx).volumeFlux phaseIdx then
              (context.extensiveQuantities spaceIdx timeIdx).interiorIndex
            else (context.extensiveQuantities spaceIdx timeIdx).exteriorIndex)
            timeIdx).fluidState.density phaseIdx := by
  rw [addAdvectiveFlux_upwind_sum, addAdvectiveFlux_upwind_sum, add_sub_add_left_eq_sub]
  exact sum_considering_sub context.phaseIsConsidered
    (fun p =>
      (context.extensiveQuantities spaceIdx timeIdx).volumeFlux p
        * (context.intensiveQuantities
            (if 0 < (context.extensiveQuantities spaceIdx timeIdx).volumeFlux p then
              (context.extensiveQuantities spaceIdx timeIdx).interiorIndex
            else (context.extensiveQuantities spaceIdx timeIdx).exteriorIndex)
            timeIdx).fluidState.enthalpy p
        * (context.intensiveQuantities
            (if 0 < (context.extensiveQuantities spaceIdx timeIdx).volumeFlux p then
              (context.extensiveQuantities spaceIdx timeIdx).interiorIndex
            else (context.extensiveQuantities spaceIdx timeIdx).exteriorIndex)
            timeIdx).fluidState.density p)
    tt.numPhases phaseIdx hphase

/-- C8: on a face whose cache holds the upstream index chosen from the sign of each
phase's volume flux, the contribution of a phase to `addAdvectiveFlux` (the result with
the phase considered minus the result without it) is `volumeFlux` times the enthalpy
and density of the face's inside cell when `volumeFlux = +1`, and of its outside cell
when `volumeFlux = -1`; in general it is taken at the inside cell for every positive
flux and at the outside cell for every negative one, and replacing the fluxes by
fluxes of the same signs leaves the cell of every phase unchanged. -/
theorem addAdvectiveFlux_upwind (tt : TypeTag) (flux : RateVector tt.numEq)
    (context : Context) (spaceIdx timeIdx : Int) (phaseIdx : Nat) (volumeFlux2 : Nat → ℚ)
    (hphase : phaseIdx < tt.numPhases) :
    ((context.extensiveQuantities spaceIdx timeIdx).volumeFlux phaseIdx = 1 →
        EnergyModule.addAdvectiveFlux tt flux (context.considering phaseIdx true).withUpwindCache
              spaceIdx timeIdx tt.energyEqIdx
            - EnergyModule.addAdvectiveFlux tt flux
                (context.considering phaseIdx false).withUpwindCache spaceIdx timeIdx
                tt.energyEqIdx
          = 1 * (context.intensiveQuantities
                  (context.extensiveQuantities spaceIdx timeIdx).interiorIndex
                  timeIdx).fluidState.enthalpy phaseIdx
              * (context.intensiveQuantities
                  (context.extensiveQuantities spaceIdx timeIdx).interiorIndex
                  timeIdx).fluidState.density phaseIdx)
      ∧ ((context.extensiveQuantities spaceIdx timeIdx).volumeFlux phaseIdx = -1 →
        EnergyModule.addAdvectiveFlux tt flux (context.considering phaseIdx true).withUpwindCache
              spaceIdx timeIdx tt.energyEqIdx
            - EnergyModule.addAdvectiveFlux tt flux
                (context.considering phaseIdx false).withUpwindCache spaceIdx timeIdx
                tt.energyEqIdx
          = (-1) * (context.intensiveQuantities
                  (context.extensiveQuantities spaceIdx timeIdx).exteriorIndex
                  timeIdx).fluidState.enthalpy phaseIdx
              * (context.intensiveQuantities
                  (context.extensiveQuantities spaceIdx timeIdx).exteriorIndex
                  timeIdx).fluidState.density phaseIdx)
      ∧ (0 < (context.extensiveQuantities spaceIdx timeIdx).volumeFlux phaseIdx →
        EnergyModule.addAdvectiveFlux tt flux (context.considering phaseIdx true).withUpwindCache
              spaceIdx timeIdx tt.energyEqIdx
            - EnergyModule.addAdvectiveFlux tt flux
                (context.considering phaseIdx false).withUpwindCache spaceIdx timeIdx
                tt.energyEqIdx
          = (context.extensiveQuantities spaceIdx timeIdx).volumeFlux phaseIdx
              * (context.intensiveQuantities
                  (context.extensiveQuantities spaceIdx timeIdx).interiorIndex
                  timeIdx).fluidState.enthalpy phaseIdx
              * (context.intensiveQuantities
                  (context.extensiveQuantities spaceIdx timeIdx).interiorIndex
                  timeIdx).fluidState.density phaseIdx)
      ∧ ((context.extensiveQuantities spaceIdx timeIdx).volumeFlux phaseIdx < 0 →
        EnergyModule.addAdvectiveFlux tt flux (context.considering phaseIdx true).withUpwindCache
              spaceIdx timeIdx tt.energyEqIdx
            - EnergyModule.addAdvectiveFlux tt flux
                (context.considering phaseIdx false).withUpwindCache spaceIdx timeIdx
                tt.energyEqIdx
          = (context.extensiveQuantities spaceIdx timeIdx).volumeFlux phaseIdx
              * (context.intensiveQuantities
                  (context.extensiveQuantities spaceIdx timeIdx).exteriorIndex
                  timeIdx).fluidState.enthalpy phaseIdx
              * (context.intensiveQuantities
                  (context.extensiveQuantities spaceIdx timeIdx).exteriorIndex
                  timeIdx).fluidState.density phaseIdx)
      ∧ ((∀ p, SignType.sign (volumeFlux2 p)
            = SignType.sign ((context.extensiveQuantities spaceIdx timeIdx).volumeFlux p)) →
        EnergyModule.addAdvectiveFlux tt flux
            (context.withVolumeFlux volumeFlux2).withUpwindCache spaceIdx timeIdx tt.energyEqIdx
          = flux tt.energyEqIdx
            + ∑ p in (Finset.range tt.numPhases).filter
                  (fun p => context.phaseIsConsidered p = true),
                volumeFlux2 p
                  * (context.intensiveQuantities
                      (if 0 < (context.extensiveQuantities spaceIdx timeIdx).volumeFlux p then
                        (context.extensiveQuantities spaceIdx timeIdx).interiorIndex
                      else (context.extensiveQuantities spaceIdx timeIdx).exteriorIndex)
                      timeIdx).fluidState.enthalpy p
                  * (context.intensiveQuantities
                      (if 0 < (context.extensiveQuantities spaceIdx timeIdx).volumeFlux p then
                        (context.extensiveQuantities spaceIdx timeIdx).interiorIndex
                      else (context.extensiveQuantities spaceIdx timeIdx).exteriorIndex)
                      timeIdx).fluidState.density p) := by
  have hdiff := addAdvectiveFlux_considering_sub tt flux context spaceIdx timeIdx phaseIdx hphase
  refine ⟨?_, ?_, ?_, ?_, ?_⟩
  · intro h1
    rw [hdiff, h1, if_pos one_pos]
  · intro h1
    rw [hdiff, h1, if_neg (by norm_num)]
  · intro hpos
    rw [hdiff, if_pos hpos]
  · intro hneg
    rw [hdiff, if_neg (not_lt.mpr hneg.le)]
  · intro hsign
    rw [addAdvectiveFlux_upwind_sum, Finset.sum_filter]
    congr 1
    apply Finset.sum_congr rfl
    intro p _
    have hiff : 0 < volumeFlux2 p
        ↔ 0 < (context.extensiveQuantities spaceIdx timeIdx).volumeFlux p := by
      rw [← sign_eq_one_iff, hsign p, sign_eq_one_iff]
    by_cases hc : context.phaseIsConsidered p = true
    · have hc2 : (context.withVolumeFlux volumeFlux2).phaseIsConsidered p = true := hc
      rw [if_pos hc, if_pos hc2]
      by_cases hpos : 0 < (context.extensiveQuantities spaceIdx timeIdx).volumeFlux p
      · have hpos2 : 0 < ((context.withVolumeFlux volumeFlux2).extensiveQuantities spaceIdx
            timeIdx).volumeFlux p := hiff.mpr hpos
        rw [if_pos hpos, if_pos hpos2]
        rfl
      · have hpos2 : ¬ 0 < ((context.withVolumeFlux volumeFlux2).extensiveQuantities spaceIdx
            timeIdx).volumeFlux p := fun h => hpos (hiff.mp h)
        rw [if_neg hpos, if_neg hpos2]
        rfl
    · have hc2 : ¬ (context.withVolumeFlux volumeFlux2).phaseIsConsidered p = true := hc
      rw [if_neg hc, if_neg hc2]

theorem addAdvectiveFlux_upwind_witness :
    (sampleContext.extensiveQuantities 0 0).volumeFlux 0 = 1
      ∧ EnergyModule.addAdvectiveFlux sampleTypeTag (fun _ => 0)
            (sampleContext.considering 0 true).withUpwindCache 0 0 sampleTypeTag.energyEqIdx
          - EnergyModule.addAdvectiveFlux sampleTypeTag (fun _ => 0)
              (sampleContext.considering 0 false).withUpwindCache 0 0 sampleTypeTag.energyEqIdx
        = 1 * (sampleContext.intensiveQuantities 0 0).fluidState.enthalpy 0
            * (sampleContext.intensiveQuantities 0 0).fluidState.density 0
      ∧ (sampleContext.extensiveQuantities 0 0).volumeFlux 1 = -1
      ∧ EnergyModule.addAdvectiveFlux sampleTypeTag (fun _ => 0)
            (sampleContext.considering 1 true).withUpwindCache 0 0 sampleTypeTag.energyEqIdx
          - EnergyModule.addAdvectiveFlux sampleTypeTag (fun _ => 0)
              (sampleContext.considering 1 false).withUpwindCache 0 0 sampleTypeTag.energyEqIdx
        = (-1) * (sampleContext.intensiveQuantities 1 0).fluidState.enthalpy 1
            * (sampleContext.intensiveQuantities 1 0).fluidState.density 1 :=
  ⟨by simp [sampleContext],
    (addAdvectiveFlux_upwind sampleTypeTag (fun _ => 0) sampleContext 0 0 0 (fun _ => 0)
      (by decide)).1 (by simp [sampleContext]),
    by simp [sampleContext],
    (addAdvectiveFlux_upwind sampleTypeTag (fun _ => 0) sampleContext 0 0 1 (fun _ => 0)
      (by decide)).2.1 (by simp [sampleContext])⟩

/-- C9: `addAdvectiveFlux` adds to `flux[energyEqIdx]` the sum over the considered
phases of `volumeFlux * enthalpy_up * density_up`, taken at the upstream cell of each
phase, and leaves every other component of `flux` unchanged. -/
theorem addAdvectiveFlux_sum (tt : TypeTag) (flux : RateVector tt.numEq) (context : Context)
    (spaceIdx timeIdx : Int) :
    EnergyModule.addAdvectiveFlux tt flux context spaceIdx timeIdx tt.energyEqIdx
        = flux tt.energyEqIdx
          + ∑ p in (Finset.range tt.numPhases).filter
                (fun p => context.phaseIsConsidered p = true),
              (context.extensiveQuantities spaceIdx timeIdx).volumeFlux p
                * (context.intensiveQuantities
                    ((context.extensiveQuantities spaceIdx timeIdx).upstreamIndex p)
                    timeIdx).fluidState.enthalpy p
                * (context.intensiveQuantities
                    ((context.extensiveQuantities spaceIdx timeIdx).upstreamIndex p)
                    timeIdx).fluidState.density p
      ∧ ∀ i, i ≠ tt.energyEqIdx →
          EnergyModule.addAdvectiveFlux tt flux context spaceIdx timeIdx i = flux i := by
  unfold EnergyModule.addAdvectiveFlux
  constructor
  · rw [(foldl_advectivePhase tt context _ timeIdx tt.numPhases flux).2, Finset.sum_filter]
  · exact (foldl_advectivePhase tt context _ timeIdx tt.numPhases flux).1

/-- C10: `addPhaseStorage` adds `density * internalEnergy * saturation * porosity` of
the phase to the existing value of `storage[energyEqIdx]` and leaves every other
component of `storage` unchanged. -/
theorem addPhaseStorage_additive (tt : TypeTag) (storage : RateVector tt.numEq)
    (intQuants : IntensiveQuantities) (phaseIdx : Nat) :
    EnergyModule.addPhaseStorage tt storage intQuants phaseIdx tt.energyEqIdx
        = storage tt.energyEqIdx
          + intQuants.fluidState.density phaseIdx
            * intQuants.fluidState.internalEnergy phaseIdx
            * intQuants.fluidState.saturation phaseIdx
            * intQuants.porosity
      ∧ ∀ i, i ≠ tt.energyEqIdx →
          EnergyModule.addPhaseStorage tt storage intQuants phaseIdx i = storage i := by
  unfold EnergyModule.addPhaseStorage
  constructor
  · simp
  · intro i hi
    simp [Function.update_noteq hi]

end Ewoms

/-! ## Energy module: linearity of the storage term -/

namespace Ewoms

/-- C11: for fixed density and internal energy, the amount `addPhaseStorage` adds to
`storage[energyEqIdx]` is multiplied by `k` when the saturation of the phase is
multiplied by `k`, and likewise when the porosity is multiplied by `k`. -/
theorem addPhaseStorage_linear (tt : TypeTag) (storage : RateVector tt.numEq)
    (intQuants : IntensiveQuantities) (phaseIdx : Nat) (k : ℚ) :
    EnergyModule.addPhaseStorage tt storage
          { intQuants with
            fluidState := { intQuants.fluidState with
              saturation := fun q => k * intQuants.fluidState.saturation q } }
          phaseIdx tt.energyEqIdx - storage tt.energyEqIdx
        = k * (EnergyModule.addPhaseStorage tt storage intQuants phaseIdx tt.energyEqIdx
            - storage tt.energyEqIdx)
      ∧ EnergyModule.addPhaseStorage tt storage
          { intQuants with porosity := k * intQuants.porosity }
          phaseIdx tt.energyEqIdx - storage tt.energyEqIdx
        = k * (EnergyModule.addPhaseStorage tt storage intQuants phaseIdx tt.energyEqIdx
            - storage tt.energyEqIdx) := by
  unfold EnergyModule.addPhaseStorage
  constructor
  · simp only [Function.update_same]
    ring
  · simp only [Function.update_same]
    ring

/-! ## Energy module: the disabled variant -/

/-- C12: with energy disabled, `primaryVarName` and `eqName` return the empty string
and `primaryVarWeight` and `eqWeight` return `-1`, for every index, model and degree
of freedom. -/
theorem disabled_names_and_weights {numEq : Nat} (model : Model numEq)
    (globalDofIdx idx : Int) :
    EnergyModuleDisabled.primaryVarName idx = ""
      ∧ EnergyModuleDisabled.eqName idx = ""
      ∧ EnergyModuleDisabled.primaryVarWeight model globalDofIdx idx = -1
      ∧ EnergyModuleDisabled.eqWeight model globalDofIdx idx = -1 :=
  ⟨rfl, rfl, rfl, rfl⟩

/-- C13: with energy disabled, every storage, flux and rate operation and
`setPriVarTemperatures` return their output argument unchanged (so a zero vector stays
zero), and `heatConductionRate` returns `0`. -/
theorem disabled_contributes_nothing {numEq : Nat} (vec : RateVector numEq)
    (priVars : PrimaryVariables numEq) (intQuants : IntensiveQuantities)
    (extQuants : ExtensiveQuantities) (context : Context) (scv : SubControlVolume)
    (fs : FluidState) (phaseIdx : Nat) (spaceIdx timeIdx : Int) (rate volume : ℚ) :
    EnergyModuleDisabled.addPhaseStorage vec intQuants phaseIdx = vec
      ∧ EnergyModuleDisabled.addFracturePhaseStorage vec intQuants scv phaseIdx = vec
      ∧ EnergyModuleDisabled.addSolidHeatStorage vec intQuants = vec
      ∧ EnergyModuleDisabled.addAdvectiveFlux vec context spaceIdx timeIdx = vec
      ∧ EnergyModuleDisabled.handleFractureFlux vec context spaceIdx timeIdx = vec
      ∧ EnergyModuleDisabled.addDiffusiveFlux vec context spaceIdx timeIdx = vec
      ∧ EnergyModuleDisabled.setEnthalpyRate vec rate = vec
      ∧ EnergyModuleDisabled.setEnthalpyRateOfVolume vec fs phaseIdx volume = vec
      ∧ EnergyModuleDisabled.addToEnthalpyRate vec rate = vec
      ∧ EnergyModuleDisabled.setPriVarTemperatures priVars fs = priVars
      ∧ EnergyModuleDisabled.heatConductionRate extQuants = 0
      ∧ EnergyModuleDisabled.addPhaseStorage (fun _ : Fin numEq => (0 : ℚ)) intQuants phaseIdx
          = fun _ => 0 :=
  ⟨rfl, rfl, rfl, rfl, rfl, rfl, rfl, rfl, rfl, rfl, rfl, rfl⟩

/-- C14: with energy disabled, `heatCapacitySolid` and `heatConductivity` of the
intensive quantities and `temperatureGradNormal` and `heatConductivity` of the
extensive quantities end in a logic error on every call; none of them returns a
value. -/
theorem disabled_accessors_fail (intQuants : EnergyIntensiveQuantitiesDisabled)
    (extQuants : EnergyExtensiveQuantitiesDisabled) (v : ℚ) :
    (∃ message, intQuants.heatCapacitySolid = Except.error (Failure.logicError message))
      ∧ (∃ message, intQuants.heatConductivity = Except.error (Failure.logicError message))
      ∧ (∃ message, extQuants.temperatureGradNormal
          = Except.error (Failure.logicError message))
      ∧ (∃ message, extQuants.heatConductivity = Except.error (Failure.logicError message))
      ∧ intQuants.heatCapacitySolid ≠ Except.ok v
      ∧ intQuants.heatConductivity ≠ Except.ok v
      ∧ extQuants.temperatureGradNormal ≠ Except.ok v
      ∧ extQuants.heatConductivity ≠ Except.ok v := by
  refine ⟨⟨_, rfl⟩, ⟨_, rfl⟩, ⟨_, rfl⟩, ⟨_, rfl⟩, ?_, ?_, ?_, ?_⟩ <;>
    exact fun h => Except.noConfusion h

/-! ## Energy module: the face quantities -/

theorem ediv_of_ne {a b : ℚ} (h : b ≠ 0) : ediv a b = Except.ok (a / b) := by
  simp [ediv, h]

/-- With assertions enabled `updateBoundary_` has a value exactly for a positive
projected distance. -/
theorem updateBoundary_checked {dimWorld : Nat} (context : ElementContext dimWorld)
    (bfIdx timeIdx : Int) (fs : FluidState) :
    EnergyExtensiveQuantities.updateBoundary_ true context bfIdx timeIdx fs
      = if 0 < boundaryDist context bfIdx timeIdx then
          Except.ok
            { temperatureGradNormal_ :=
                (fs.temperature 0
                  - (context.intensiveQuantities (context.boundaryFace timeIdx bfIdx).interiorIndex
                      timeIdx).fluidState.temperature 0)
                  / boundaryDist context bfIdx timeIdx
              heatConductivity_ :=
                (context.intensiveQuantities (context.boundaryFace timeIdx bfIdx).interiorIndex
                  timeIdx).heatConductivity }
        else Except.error (Failure.assertionFailed "dist > 0") := by
  unfold EnergyExtensiveQuantities.updateBoundary_
  by_cases h : 0 < boundaryDist context bfIdx timeIdx
  · simp [h, ediv_of_ne (ne_of_gt h)]
  · simp [h]
    rfl

/-- Without assertions `updateBoundary_` has a value exactly for a nonzero projected
distance. -/
theorem updateBoundary_unchecked {dimWorld : Nat} (context : ElementContext dimWorld)
    (bfIdx timeIdx : Int) (fs : FluidState) :
    EnergyExtensiveQuantities.updateBoundary_ false context bfIdx timeIdx fs
      = if boundaryDist context bfIdx timeIdx = 0 then Except.error Failure.divisionByZero
        else
          Except.ok
            { temperatureGradNormal_ :=
                (fs.temperature 0
                  - (context.intensiveQuantities (context.boundaryFace timeIdx bfIdx).interiorIndex
                      timeIdx).fluidState.temperature 0)
                  / boundaryDist context bfIdx timeIdx
              heatConductivity_ :=
                (context.intensiveQuantities (context.boundaryFace timeIdx bfIdx).interiorIndex
                  timeIdx).heatConductivity } := by
  unfold EnergyExtensiveQuantities.updateBoundary_
  by_cases h : boundaryDist context bfIdx timeIdx = 0
  · simp [h, ediv]
  · simp [h, ediv]

theorem sample_boundaryDist :
    boundaryDist sampleElementContext 0 0 = 1 / 2
      ∧ boundaryDist sampleElementContext 1 0 = -(1 / 2) := by
  constructor <;> norm_num [boundaryDist, sampleElementContext, Fin.sum_univ_two]

/-- C15: for every boundary face whose projected distance `dist` (the vector from the
inside sub-control-volume center to the face integration point, times the face normal)
is positive, `updateBoundary_` sets `temperatureGradNormal` to
`(boundaryTemperature - insideTemperature) / dist`, with or without assertions. -/
theorem updateBoundary_gradient {dimWorld : Nat} (assertionsEnabled : Bool)
    (context : ElementContext dimWorld) (bfIdx timeIdx : Int) (fs : FluidState)
    (hdist : 0 < boundaryDist context bfIdx timeIdx) :
    boundaryDist context bfIdx timeIdx
        = ∑ dimIdx, ((context.boundaryFace timeIdx bfIdx).integrationPos dimIdx
            - context.scvCenter timeIdx (context.boundaryFace timeIdx bfIdx).interiorIndex dimIdx)
            * (context.boundaryFace timeIdx bfIdx).normal dimIdx
      ∧ ∃ extQuants,
        EnergyExtensiveQuantities.updateBoundary_ assertionsEnabled context bfIdx timeIdx fs
          = Except.ok extQuants
        ∧ extQuants.temperatureGradNormal_
          = (fs.temperature 0
              - (context.intensiveQuantities (context.boundaryFace timeIdx bfIdx).interiorIndex
                  timeIdx).fluidState.temperature 0)
            / boundaryDist context bfIdx timeIdx := by
  refine ⟨by simp [boundaryDist], ?_⟩
  cases assertionsEnabled
  · rw [updateBoundary_unchecked, if_neg (ne_of_gt hdist)]
    exact ⟨_, rfl, rfl⟩
  · rw [updateBoundary_checked, if_pos hdist]
    exact ⟨_, rfl, rfl⟩

theorem updateBoundary_gradient_witness :
    boundaryDist sampleElementContext 0 0 = 1 / 2
      ∧ boundaryFluidState.temperature 0 = 310
      ∧ (sampleElementContext.intensiveQuantities 0 0).fluidState.temperature 0 = 300
      ∧ ∃ extQuants,
        EnergyExtensiveQuantities.updateBoundary_ true sampleElementContext 0 0
            boundaryFluidState = Except.ok extQuants
        ∧ extQuants.temperatureGradNormal_ = 20 := by
  refine ⟨sample_boundaryDist.1, rfl, rfl, ?_⟩
  obtain ⟨-, extQuants, hok, hgrad⟩ :=
    updateBoundary_gradient true sampleElementContext 0 0 boundaryFluidState
      (by rw [sample_boundaryDist.1]; norm_num)
  refine ⟨extQuants, hok, ?_⟩
  rw [hgrad, sample_boundaryDist.1]
  norm_num [sampleElementContext, sampleContext, sampleFluidState, boundaryFluidState]

/-- C16 (refuted as stated): in a build without assertions, on the inverted boundary
face `1` of `sampleElementContext` the projected distance is `-1/2` and
`updateBoundary_` still returns a value, the gradient `(310 - 300) / (-1/2) = -20`. -/
theorem updateBoundary_negative_dist_unchecked :
    boundaryDist sampleElementContext 1 0 = -(1 / 2)
      ∧ EnergyExtensiveQuantities.updateBoundary_ false sampleElementContext 1 0
          boundaryFluidState
        = Except.ok { temperatureGradNormal_ := -20, heatConductivity_ := 2 } := by
  refine ⟨sample_boundaryDist.2, ?_⟩
  rw [updateBoundary_unchecked, sample_boundaryDist.2, if_neg (by norm_num)]
  norm_num [sampleElementContext, sampleContext, sampleFluidState, boundaryFluidState]

/-- C16 (amended): with assertions enabled, `updateBoundary_` returns its two
quantities when the projected distance is strictly positive and otherwise fails on
`assert(dist > 0)` without producing a gradient; with assertions compiled out it
returns a value for every nonzero distance and divides by zero at distance zero. -/
theorem updateBoundary_positive_iff {dimWorld : Nat} (context : ElementContext dimWorld)
    (bfIdx timeIdx : Int) (fs : FluidState) :
    EnergyExtensiveQuantities.updateBoundary_ true context bfIdx timeIdx fs
        = (if 0 < boundaryDist context bfIdx timeIdx then
            Except.ok
              { temperatureGradNormal_ :=
                  (fs.temperature 0
                    - (context.intensiveQuantities
                        (context.boundaryFace timeIdx bfIdx).interiorIndex
                        timeIdx).fluidState.temperature 0)
                    / boundaryDist context bfIdx timeIdx
                heatConductivity_ :=
                  (context.intensiveQuantities (context.boundaryFace timeIdx bfIdx).interiorIndex
                    timeIdx).heatConductivity }
          else Except.error (Failure.assertionFailed "dist > 0"))
      ∧ EnergyExtensiveQuantities.updateBoundary_ false context bfIdx timeIdx fs
        = (if boundaryDist context bfIdx timeIdx = 0 then Except.error Failure.divisionByZero
          else
            Except.ok
              { temperatureGradNormal_ :=
                  (fs.temperature 0
                    - (context.intensiveQuantities
                        (context.boundaryFace timeIdx bfIdx).interiorIndex
                        timeIdx).fluidState.temperature 0)
                    / boundaryDist context bfIdx timeIdx
                heatConductivity_ :=
                  (context.intensiveQuantities (context.boundaryFace timeIdx bfIdx).interiorIndex
                    timeIdx).heatConductivity }) :=
  ⟨updateBoundary_checked context bfIdx timeIdx fs,
    updateBoundary_unchecked context bfIdx timeIdx fs⟩

/-- C17: on an interior face `update_` sets `heatConductivity` to the arithmetic mean
`0.5 * (inside + outside)` of the two cells; on a boundary face with positive
projected distance `updateBoundary_` sets it to the conductivity of the inside cell. -/
theorem face_heatConductivity {dimWorld : Nat} (assertionsEnabled : Bool)
    (context : ElementContext dimWorld) (faceIdx bfIdx timeIdx : Int) (fs : FluidState)
    (hdist : 0 < boundaryDist context bfIdx timeIdx) :
    (EnergyExtensiveQuantities.update_ context faceIdx timeIdx).heatConductivity_
        = (1 / 2 : ℚ)
          * ((context.intensiveQuantities
                (context.extensiveQuantities faceIdx timeIdx).interiorIndex
                timeIdx).heatConductivity
            + (context.intensiveQuantities
                (context.extensiveQuantities faceIdx timeIdx).exteriorIndex
                timeIdx).heatConductivity)
      ∧ ∃ extQuants,
        EnergyExtensiveQuantities.updateBoundary_ assertionsEnabled context bfIdx timeIdx fs
          = Except.ok extQuants
        ∧ extQuants.heatConductivity_
          = (context.intensiveQuantities (context.boundaryFace timeIdx bfIdx).interiorIndex
              timeIdx).heatConductivity := by
  refine ⟨rfl, ?_⟩
  cases assertionsEnabled
  · rw [updateBoundary_unchecked, if_neg (ne_of_gt hdist)]
    exact ⟨_, rfl, rfl⟩
  · rw [updateBoundary_checked, if_pos hdist]
    exact ⟨_, rfl, rfl⟩

theorem face_heatConductivity_witness :
    (EnergyExtensiveQuantities.update_ sampleElementContext 0 0).heatConductivity_
        = (1 / 2 : ℚ)
          * ((sampleElementContext.intensiveQuantities
                (sampleElementContext.extensiveQuantities 0 0).interiorIndex 0).heatConductivity
            + (sampleElementContext.intensiveQuantities
                (sampleElementContext.extensiveQuantities 0 0).exteriorIndex 0).heatConductivity)
      ∧ ∃ extQuants,
        EnergyExtensiveQuantities.updateBoundary_ true sampleElementContext 0 0
            boundaryFluidState = Except.ok extQuants
        ∧ extQuants.heatConductivity_
          = (sampleElementContext.intensiveQuantities
              (sampleElementContext.boundaryFace 0 0).interiorIndex 0).heatConductivity :=
  face_heatConductivity true sampleElementContext 0 0 0 boundaryFluidState
    (by rw [sample_boundaryDist.1]; norm_num)

/-! ## Energy module: diffusive and fracture flux, names -/

/-- C18: `heatConductionRate` is `-(temperatureGradNormal) * heatConductivity` of the
face; `addDiffusiveFlux` adds exactly that value to `flux[energyEqIdx]` and leaves
every other component of `flux` unchanged. -/
theorem addDiffusiveFlux_fourier (tt : TypeTag) (flux : RateVector tt.numEq)
    (context : Context) (extQuants : ExtensiveQuantities) (spaceIdx timeIdx : Int) :
    EnergyModule.heatConductionRate extQuants
        = -(extQuants.temperatureGradNormal) * extQuants.heatConductivity
      ∧ EnergyModule.addDiffusiveFlux tt flux context spaceIdx timeIdx tt.energyEqIdx
        = flux tt.energyEqIdx
          + EnergyModule.heatConductionRate (context.extensiveQuantities spaceIdx timeIdx)
      ∧ ∀ i, i ≠ tt.energyEqIdx →
          EnergyModule.addDiffusiveFlux tt flux context spaceIdx timeIdx i = flux i := by
  refine ⟨rfl, ?_, ?_⟩
  · simp [EnergyModule.addDiffusiveFlux, EnergyModule.heatConductionRate]
  · intro i hi
    simp [EnergyModule.addDiffusiveFlux, Function.update_noteq hi]

theorem fracturePhase_other (tt : TypeTag) (context : Context) (extQuants : ExtensiveQuantities)
    (timeIdx : Int) (flux : RateVector tt.numEq) (phaseIdx : Nat) (i : Fin tt.numEq)
    (hi : i ≠ tt.energyEqIdx) :
    fracturePhase tt context extQuants timeIdx flux phaseIdx i = flux i := by
  unfold fracturePhase
  split
  · rfl
  · simp [Function.update_noteq hi]

theorem fracturePhase_energy (tt : TypeTag) (context : Context) (extQuants : ExtensiveQuantities)
    (timeIdx : Int) (flux : RateVector tt.numEq) (phaseIdx : Nat) :
    fracturePhase tt context extQuants timeIdx flux phaseIdx tt.energyEqIdx
      = flux tt.energyEqIdx
        + (if context.phaseIsConsidered phaseIdx = true then
            extQuants.fractureVolumeFlux phaseIdx
              * (context.intensiveQuantities (extQuants.upstreamIndex phaseIdx)
                  timeIdx).fluidState.enthalpy phaseIdx
              * (context.intensiveQuantities (extQuants.upstreamIndex phaseIdx)
                  timeIdx).fluidState.density phaseIdx
          else 0) := by
  unfold fracturePhase
  cases h : context.phaseIsConsidered phaseIdx <;> simp

/-- The fracture phase loop over `0 .. n-1`, component by component. -/
theorem foldl_fracturePhase (tt : TypeTag) (context : Context)
    (extQuants : ExtensiveQuantities) (timeIdx : Int) (n : Nat) (flux : RateVector tt.numEq) :
    (∀ i, i ≠ tt.energyEqIdx →
        (List.range n).foldl (fracturePhase tt context extQuants timeIdx) flux i = flux i)
      ∧ (List.range n).foldl (fracturePhase tt context extQuants timeIdx) flux tt.energyEqIdx
        = flux tt.energyEqIdx
          + ∑ p in Finset.range n,
              (if context.phaseIsConsidered p = true then
                extQuants.fractureVolumeFlux p
                  * (context.intensiveQuantities (extQuants.upstreamIndex p)
                      timeIdx).fluidState.enthalpy p
                  * (context.intensiveQuantities (extQuants.upstreamIndex p)
                      timeIdx).fluidState.density p
              else 0) := by
  induction n with
  | zero => simp
  | succ n ih =>
    rw [List.range_succ, List.foldl_append]
    simp only [List.foldl_cons, List.foldl_nil]
    constructor
    · intro i hi
      rw [fracturePhase_other _ _ _ _ _ _ i hi]
      exact ih.1 i hi
    · rw [fracturePhase_energy, ih.2, Finset.sum_range_succ, add_assoc]

/-- The value of `handleFractureFlux` on a face of nonzero area. -/
theorem handleFractureFlux_of_area (tt : TypeTag) (flux : RateVector tt.numEq)
    (context : Context) (spaceIdx timeIdx : Int)
    (harea : context.interiorFaceArea timeIdx spaceIdx ≠ 0) :
    EnergyModule.handleFractureFlux tt flux context spaceIdx timeIdx
      = Except.ok ((List.range tt.numPhases).foldl
          (fracturePhase tt context (context.extensiveQuantities spaceIdx timeIdx) timeIdx)
          (Function.update flux tt.energyEqIdx
            (flux tt.energyEqIdx
              * (1 - (context.extensiveQuantities spaceIdx timeIdx).fractureWidth
                  / (2 * context.interiorFaceArea timeIdx spaceIdx))))) := by
  have h2 : 2 * context.interiorFaceArea timeIdx spaceIdx ≠ 0 :=
    mul_ne_zero two_ne_zero harea
  unfold EnergyModule.handleFractureFlux
  simp only [ediv_of_ne h2]
  rfl

/-- C19: on a face of nonzero area `handleFractureFlux` first multiplies the
accumulated `flux[energyEqIdx]` by `1 - fractureWidth / (2 * faceArea)` and then adds,
for every considered phase, `fractureVolumeFlux * enthalpy_up * density_up` at the
upstream index `upstreamIndex(phaseIdx)` that the matrix flux uses; the other
components of `flux` are unchanged. -/
theorem handleFractureFlux_formula (tt : TypeTag) (flux : RateVector tt.numEq)
    (context : Context) (spaceIdx timeIdx : Int)
    (harea : context.interiorFaceArea timeIdx spaceIdx ≠ 0) :
    ∃ result, EnergyModule.handleFractureFlux tt flux context spaceIdx timeIdx = Except.ok result
      ∧ result tt.energyEqIdx
        = flux tt.energyEqIdx
            * (1 - (context.extensiveQuantities spaceIdx timeIdx).fractureWidth
                / (2 * context.interiorFaceArea timeIdx spaceIdx))
          + ∑ p in (Finset.range tt.numPhases).filter
                (fun p => context.phaseIsConsidered p = true),
              (context.extensiveQuantities spaceIdx timeIdx).fractureVolumeFlux p
                * (context.intensiveQuantities
                    ((context.extensiveQuantities spaceIdx timeIdx).upstreamIndex p)
                    timeIdx).fluidState.enthalpy p
                * (context.intensiveQuantities
                    ((context.extensiveQuantities spaceIdx timeIdx).upstreamIndex p)
                    timeIdx).fluidState.density p
      ∧ ∀ i, i ≠ tt.energyEqIdx → result i = flux i := by
  refine ⟨_, handleFractureFlux_of_area tt flux context spaceIdx timeIdx harea, ?_, ?_⟩
  · rw [(foldl_fracturePhase tt context _ timeIdx tt.numPhases _).2, Finset.sum_filter]
    simp
  · intro i hi
    rw [(foldl_fracturePhase tt context _ timeIdx tt.numPhases _).1 i hi]
    simp [Function.update_noteq hi]

theorem handleFractureFlux_formula_witness :
    ∃ result, EnergyModule.handleFractureFlux sampleTypeTag (fun _ => 10) sampleContext 0 0
        = Except.ok result
      ∧ result sampleTypeTag.energyEqIdx
        = (fun _ => (10 : ℚ)) sampleTypeTag.energyEqIdx
            * (1 - (sampleContext.extensiveQuantities 0 0).fractureWidth
                / (2 * sampleContext.interiorFaceArea 0 0))
          + ∑ p in (Finset.range sampleTypeTag.numPhases).filter
                (fun p => sampleContext.phaseIsConsidered p = true),
              (sampleContext.extensiveQuantities 0 0).fractureVolumeFlux p
                * (sampleContext.intensiveQuantities
                    ((sampleContext.extensiveQuantities 0 0).upstreamIndex p)
                    0).fluidState.enthalpy p
                * (sampleContext.intensiveQuantities
                    ((sampleContext.extensiveQuantities 0 0).upstreamIndex p)
                    0).fluidState.density p
      ∧ ∀ i, i ≠ sampleTypeTag.energyEqIdx → result i = (fun _ => (10 : ℚ)) i :=
  handleFractureFlux_formula sampleTypeTag (fun _ => 10) sampleContext 0 0
    (by norm_num [sampleContext])

/-- C20: with energy enabled, `eqName` returns "energy" exactly at `energyEqIdx` and
the empty string at every other index; `primaryVarName` returns "temperature" exactly
at `temperatureIdx` and the empty string at every other index. -/
theorem enabled_names (tt : TypeTag) (idx : Int) :
    (EnergyModule.eqName tt idx = "energy" ↔ idx = ((tt.energyEqIdx : Nat) : Int))
      ∧ (EnergyModule.eqName tt idx = "" ↔ idx ≠ ((tt.energyEqIdx : Nat) : Int))
      ∧ (EnergyModule.primaryVarName tt idx = "temperature"
          ↔ idx = ((tt.temperatureIdx : Nat) : Int))
      ∧ (EnergyModule.primaryVarName tt idx = ""
          ↔ idx ≠ ((tt.temperatureIdx : Nat) : Int)) := by
  unfold EnergyModule.eqName EnergyModule.primaryVarName
  refine ⟨?_, ?_, ?_, ?_⟩
  · by_cases h : idx = ((tt.energyEqIdx : Nat) : Int) <;> simp [h]
  · by_cases h : idx = ((tt.energyEqIdx : Nat) : Int) <;> simp [h]
  · by_cases h : idx = ((tt.temperatureIdx : Nat) : Int) <;> simp [h]
  · by_cases h : idx = ((tt.temperatureIdx : Nat) : Int) <;> simp [h]

end Ewoms

/-! ## Energy module: weights and indices -/

namespace Ewoms

/-- C21: `primaryVarWeight` returns `max(1/1000, 1/T)` at `temperatureIdx`, where `T`
is the temperature of the degree of freedom in the current solution (for `T = 0` the
quotient `1/T` is a division by zero), and `-1` at every other index. -/
theorem primaryVarWeight_formula (tt : TypeTag) (model : Model tt.numEq)
    (globalDofIdx pvIdx : Int) :
    EnergyModule.primaryVarWeight tt model globalDofIdx pvIdx
      = if pvIdx = ((tt.temperatureIdx : Nat) : Int) then
          (if model.solution 0 globalDofIdx tt.temperatureIdx = 0 then
            Except.error Failure.divisionByZero
          else Except.ok (max (1 / 1000) (1 / model.solution 0 globalDofIdx tt.temperatureIdx)))
        else Except.ok (-1) := by
  unfold EnergyModule.primaryVarWeight
  by_cases hpv : pvIdx = ((tt.temperatureIdx : Nat) : Int)
  · by_cases hT : model.solution 0 globalDofIdx tt.temperatureIdx = 0
    · simp [hpv, hT, ediv]
    · simp [hpv, hT, ediv]
  · simp [hpv]

theorem primaryVarWeight_at_temperature (tt : TypeTag) (model : Model tt.numEq)
    (globalDofIdx : Int) (hT : model.solution 0 globalDofIdx tt.temperatureIdx ≠ 0) :
    EnergyModule.primaryVarWeight tt model globalDofIdx ((tt.temperatureIdx : Nat) : Int)
      = Except.ok (max (1 / 1000) (1 / model.solution 0 globalDofIdx tt.temperatureIdx)) := by
  simp [EnergyModule.primaryVarWeight, ediv, hT]

/-- C22 (refuted as stated): at the temperature `2000` the weight is the floor
`1/1000`, and the weight times the temperature is `2`, not `1`. -/
theorem primaryVarWeight_floor_example :
    sampleModel.solution 0 1 sampleTypeTag.temperatureIdx = 2000
      ∧ EnergyModule.primaryVarWeight sampleTypeTag sampleModel 1
          ((sampleTypeTag.temperatureIdx : Nat) : Int) = Except.ok (1 / 1000)
      ∧ (1 / 1000 : ℚ) * sampleModel.solution 0 1 sampleTypeTag.temperatureIdx = 2 := by
  have hT : sampleModel.solution 0 1 sampleTypeTag.temperatureIdx = 2000 := by
    simp [sampleModel]
  refine ⟨hT, ?_, ?_⟩
  · rw [primaryVarWeight_at_temperature _ _ _ (by rw [hT]; norm_num), hT]
    norm_num
  · rw [hT]
    norm_num

/-- C22 (amended): for a positive temperature `T` the weight at `temperatureIdx` has a
value `w`; `w * T = 1` as long as `T <= 1000`, and for `T > 1000` the weight is the
floor `1/1000`, so that `w * T = T / 1000 > 1`. -/
theorem primaryVarWeight_times_temperature (tt : TypeTag) (model : Model tt.numEq)
    (globalDofIdx : Int) (hpos : 0 < model.solution 0 globalDofIdx tt.temperatureIdx) :
    ∃ w, EnergyModule.primaryVarWeight tt model globalDofIdx ((tt.temperatureIdx : Nat) : Int)
          = Except.ok w
      ∧ (model.solution 0 globalDofIdx tt.temperatureIdx ≤ 1000 →
          w * model.solution 0 globalDofIdx tt.temperatureIdx = 1)
      ∧ (1000 < model.solution 0 globalDofIdx tt.temperatureIdx →
          w = 1 / 1000 ∧ w * model.solution 0 globalDofIdx tt.temperatureIdx
            = model.solution 0 globalDofIdx tt.temperatureIdx / 1000
          ∧ 1 < w * model.solution 0 globalDofIdx tt.temperatureIdx) := by
  refine ⟨_, primaryVarWeight_at_temperature tt model globalDofIdx (ne_of_gt hpos), ?_, ?_⟩
  · intro hle
    have h : (1 : ℚ) / 1000 ≤ 1 / model.solution 0 globalDofIdx tt.temperatureIdx :=
      one_div_le_one_div_of_le hpos hle
    rw [max_eq_right h]
    field_simp
  · intro hgt
    have h : 1 / model.solution 0 globalDofIdx tt.temperatureIdx ≤ (1 : ℚ) / 1000 :=
      one_div_le_one_div_of_le (by norm_num) hgt.le
    rw [max_eq_left h]
    refine ⟨rfl, by ring, ?_⟩
    linarith

theorem primaryVarWeight_times_temperature_witness :
    ∃ w, EnergyModule.primaryVarWeight sampleTypeTag sampleModel 0
          ((sampleTypeTag.temperatureIdx : Nat) : Int) = Except.ok w
      ∧ (sampleModel.solution 0 0 sampleTypeTag.temperatureIdx ≤ 1000 →
          w * sampleModel.solution 0 0 sampleTypeTag.temperatureIdx = 1)
      ∧ (1000 < sampleModel.solution 0 0 sampleTypeTag.temperatureIdx →
          w = 1 / 1000 ∧ w * sampleModel.solution 0 0 sampleTypeTag.temperatureIdx
            = sampleModel.solution 0 0 sampleTypeTag.temperatureIdx / 1000
          ∧ 1 < w * sampleModel.solution 0 0 sampleTypeTag.temperatureIdx) :=
  primaryVarWeight_times_temperature sampleTypeTag sampleModel 0
    (by norm_num [sampleModel])

/-- C23: `eqWeight` returns `1/1003.5` at `energyEqIdx` and `-1` at every other index,
whatever the model and the degree of freedom are. -/
theorem eqWeight_formula (tt : TypeTag) (model model2 : Model tt.numEq)
    (globalDofIdx globalDofIdx2 eqIdx : Int) :
    EnergyModule.eqWeight tt model globalDofIdx eqIdx
        = (if eqIdx = ((tt.energyEqIdx : Nat) : Int) then 1 / 1003.5 else -1)
      ∧ EnergyModule.eqWeight tt model2 globalDofIdx2 eqIdx
        = EnergyModule.eqWeight tt model globalDofIdx eqIdx := by
  refine ⟨?_, rfl⟩
  unfold EnergyModule.eqWeight
  by_cases h : eqIdx = ((tt.energyEqIdx : Nat) : Int)
  · simp only [h, ne_eq, not_true_eq_false, if_false, if_true]
  · simp [h]

/-- C24: for every offset the enabled `EnergyIndices` has
`temperatureIdx = energyEqIdx = PVOffset` and `numEq_ = 1`; the disabled one has
`numEq_ = 0` and declares neither index. -/
theorem energyIndices_constants (PVOffset : Int) :
    EnergyIndices.temperatureIdx PVOffset true = some PVOffset
      ∧ EnergyIndices.energyEqIdx PVOffset true = some PVOffset
      ∧ EnergyIndices.temperatureIdx PVOffset true = EnergyIndices.energyEqIdx PVOffset true
      ∧ EnergyIndices.numEq_ PVOffset true = 1
      ∧ EnergyIndices.numEq_ PVOffset false = 0
      ∧ EnergyIndices.temperatureIdx PVOffset false = none
      ∧ EnergyIndices.energyEqIdx PVOffset false = none :=
  ⟨rfl, rfl, rfl, rfl, rfl, rfl, rfl⟩

/-! ## Energy module: temperatures and solid heat storage -/

theorem all_phases_agree_iff (tt : TypeTag) (fs : FluidState) :
    (List.range tt.numPhases).all
        (fun phaseIdx => decide (|fs.temperature 0 - fs.temperature phaseIdx| < 1e-30)) = true
      ↔ ∀ phaseIdx, phaseIdx < tt.numPhases →
          |fs.temperature 0 - fs.temperature phaseIdx| < 1e-30 := by
  simp [List.all_eq_true]

/-- Value of `setPriVarTemperatures` when its assertions, if any, hold. -/
theorem setPriVarTemperatures_of_agree (tt : TypeTag) (assertionsEnabled : Bool)
    (priVars : PrimaryVariables tt.numEq) (fs : FluidState)
    (h : ∀ phaseIdx, phaseIdx < tt.numPhases →
      |fs.temperature 0 - fs.temperature phaseIdx| < 1e-30) :
    EnergyModule.setPriVarTemperatures tt assertionsEnabled priVars fs
      = Except.ok (Function.update priVars tt.temperatureIdx (fs.temperature 0)) := by
  unfold EnergyModule.setPriVarTemperatures
  simp only [(all_phases_agree_iff tt fs).mpr h]
  cases assertionsEnabled <;> rfl

/-- C25: `setPriVarTemperatures` writes the phase-0 temperature of the fluid state into
`priVars[temperatureIdx]` and leaves the other primary variables unchanged; with
assertions enabled it returns exactly when every phase temperature differs from that
of phase 0 by less than `1e-30` in absolute value and fails otherwise, and without
assertions it always returns. -/
theorem setPriVarTemperatures_spec (tt : TypeTag) (priVars : PrimaryVariables tt.numEq)
    (fs : FluidState) :
    EnergyModule.setPriVarTemperatures tt true priVars fs
        = (if ∀ phaseIdx, phaseIdx < tt.numPhases →
              |fs.temperature 0 - fs.temperature phaseIdx| < 1e-30 then
            Except.ok (Function.update priVars tt.temperatureIdx (fs.temperature 0))
          else Except.error (Failure.assertionFailed
            "std::abs(temperature(0) - temperature(phaseIdx)) < 1e-30"))
      ∧ EnergyModule.setPriVarTemperatures tt false priVars fs
        = Except.ok (Function.update priVars tt.temperatureIdx (fs.temperature 0))
      ∧ Function.update priVars tt.temperatureIdx (fs.temperature 0) tt.temperatureIdx
        = fs.temperature 0
      ∧ ∀ i, i ≠ tt.temperatureIdx →
          Function.update priVars tt.temperatureIdx (fs.temperature 0) i = priVars i := by
  refine ⟨?_, ?_, by simp, fun i hi => Function.update_noteq hi _ _⟩
  · by_cases h : ∀ phaseIdx, phaseIdx < tt.numPhases →
        |fs.temperature 0 - fs.temperature phaseIdx| < 1e-30
    · rw [if_pos h, setPriVarTemperatures_of_agree tt true priVars fs h]
    · rw [if_neg h]
      have hall : (List.range tt.numPhases).all
          (fun phaseIdx => decide (|fs.temperature 0 - fs.temperature phaseIdx| < 1e-30))
          = false := by
        rw [Bool.eq_false_iff]
        exact fun hc => h ((all_phases_agree_iff tt fs).mp hc)
      unfold EnergyModule.setPriVarTemperatures
      simp only [hall]
      rfl
  · unfold EnergyModule.setPriVarTemperatures
    rfl

/-- C26: `addSolidHeatStorage` adds `heatCapacitySolid * temperature(0)` of the cell to
`storage[energyEqIdx]` and leaves every other component of `storage` unchanged. -/
theorem addSolidHeatStorage_additive (tt : TypeTag) (storage : RateVector tt.numEq)
    (intQuants : IntensiveQuantities) :
    EnergyModule.addSolidHeatStorage tt storage intQuants tt.energyEqIdx
        = storage tt.energyEqIdx
          + intQuants.heatCapacitySolid * intQuants.fluidState.temperature 0
      ∧ ∀ i, i ≠ tt.energyEqIdx →
          EnergyModule.addSolidHeatStorage tt storage intQuants i = storage i := by
  unfold EnergyModule.addSolidHeatStorage
  constructor
  · simp
  · intro i hi
    simp [Function.update_noteq hi]

/-- C30: for a fluid state whose phases share one temperature, `setPriVarTemperatures`
returns primary variables from which `updateTemperatures_` sets, for every phase, a
temperature whose value is `fs.temperature(0)`; for `timeIdx = 0` it is that value as
the differentiation variable `temperatureIdx`, for any other `timeIdx` the same value
as a constant. -/
theorem temperature_round_trip (tt : TypeTag) (assertionsEnabled : Bool)
    (priVars : PrimaryVariables tt.numEq) (fs : FluidState)
    (fluidState : EvalFluidState tt.numEq) (spaceIdx timeIdx : Int) (phaseIdx : Nat)
    (hshare : ∀ p, p < tt.numPhases → fs.temperature p = fs.temperature 0) :
    ∃ newPriVars,
      EnergyModule.setPriVarTemperatures tt assertionsEnabled priVars fs = Except.ok newPriVars
      ∧ Toolbox.value
          ((EnergyIntensiveQuantities.updateTemperatures_ tt fluidState
            (fun _ _ => newPriVars) spaceIdx timeIdx).temperature phaseIdx)
        = fs.temperature 0
      ∧ (EnergyIntensiveQuantities.updateTemperatures_ tt fluidState
            (fun _ _ => newPriVars) spaceIdx timeIdx).temperature phaseIdx
        = (if timeIdx = 0 then Toolbox.createVariable (fs.temperature 0) tt.temperatureIdx
          else Toolbox.createConstant (fs.temperature 0)) := by
  have hagree : ∀ p, p < tt.numPhases → |fs.temperature 0 - fs.temperature p| < 1e-30 := by
    intro p hp
    rw [hshare p hp, sub_self, abs_zero]
    norm_num
  refine ⟨_, setPriVarTemperatures_of_agree tt assertionsEnabled priVars fs hagree, ?_, ?_⟩
  · unfold EnergyIntensiveQuantities.updateTemperatures_ EvalFluidState.setTemperature
    by_cases ht : timeIdx = 0 <;>
      simp [ht, Toolbox.value, Toolbox.createVariable, Toolbox.createConstant]
  · unfold EnergyIntensiveQuantities.updateTemperatures_ EvalFluidState.setTemperature
    by_cases ht : timeIdx = 0 <;> simp [ht]

theorem temperature_round_trip_witness :
    ∃ newPriVars,
      EnergyModule.setPriVarTemperatures sampleTypeTag true (fun _ => 0) (sampleFluidState 2)
        = Except.ok newPriVars
      ∧ Toolbox.value
          ((EnergyIntensiveQuantities.updateTemperatures_ sampleTypeTag
            { temperature := fun _ => Toolbox.createConstant 0 }
            (fun _ _ => newPriVars) 0 1).temperature 1)
        = (sampleFluidState 2).temperature 0
      ∧ (EnergyIntensiveQuantities.updateTemperatures_ sampleTypeTag
            { temperature := fun _ => Toolbox.createConstant 0 }
            (fun _ _ => newPriVars) 0 1).temperature 1
        = (if (1 : Int) = 0 then
            Toolbox.createVariable ((sampleFluidState 2).temperature 0)
              sampleTypeTag.temperatureIdx
          else Toolbox.createConstant ((sampleFluidState 2).temperature 0)) :=
  temperature_round_trip sampleTypeTag true (fun _ => 0) (sampleFluidState 2)
    { temperature := fun _ => Toolbox.createConstant 0 } 0 1 1 (fun _ _ => rfl)

end Ewoms

/-! ## Capillary diffusion: mobility paths and the two divisions -/

namespace Dune

theorem computedMobilities_of_ne {dim : Nat} {Element Params : Type}
    (problem : Problem dim Element Params) (element : Element) (sat : ℚ)
    (hvw : problem.phaseViscosity PhaseIdx.wPhaseIdx ⟨problem.temperature element⟩ ≠ 0)
    (hvn : problem.phaseViscosity PhaseIdx.nPhaseIdx ⟨problem.temperature element⟩ ≠ 0) :
    computedMobilities problem element sat
      = some (problem.krw (problem.materialLawParams element) sat
            / problem.phaseViscosity PhaseIdx.wPhaseIdx ⟨problem.temperature element⟩,
          problem.krn (problem.materialLawParams element) sat
            / problem.phaseViscosity PhaseIdx.nPhaseIdx ⟨problem.temperature element⟩) := by
  simp [computedMobilities, PhaseState.update, sdiv_of_ne hvw, sdiv_of_ne hvn]

/-- On a boundary face `operator()` is the composition of its three partial steps. -/
theorem operatorCall_boundary_parts {dim : Nat} {Element Params : Type}
    (problem : Problem dim Element Params) (preComput : Bool)
    (element : Element) (indexInInside : Int) (satI satJ : ℚ)
    (pcGradient : FieldVector dim) (isIt : Intersection Element)
    (hfind : (problem.intersections element).find?
      (fun is => is.indexInInside == indexInInside) = some isIt)
    (hout : isIt.outside = none) :
    CapillaryDiffusion.operatorCall problem preComput element indexInInside satI satJ pcGradient
      = (selectMobilities problem preComput element satI).bind fun mI =>
          (computedMobilities problem element satJ).bind fun mJ =>
          (mobBar ((1 / 2 : ℚ) * (mI.1 + mJ.1)) ((1 / 2 : ℚ) * (mI.2 + mJ.2))).bind fun l =>
          some (fun i =>
            umv (problem.intrinsicPermeability element) pcGradient (fun _ => 0) i * l) := by
  unfold CapillaryDiffusion.operatorCall
  simp only [hfind, hout, Option.bind_eq_bind, Option.some_bind, Option.pure_def]

theorem harmonic_bounds_pos {a b : ℚ} (ha : 0 < a) (hb : 0 < b) :
    min a b ≤ 2 * a * b / (a + b) ∧ 2 * a * b / (a + b) ≤ max a b := by
  have hs : 0 < a + b := add_pos ha hb
  rcases le_total a b with h | h
  · rw [min_eq_left h, max_eq_right h, le_div_iff₀ hs, div_le_iff₀ hs]
    constructor <;> nlinarith
  · rw [min_eq_right h, max_eq_left h, le_div_iff₀ hs, div_le_iff₀ hs]
    constructor <;> nlinarith

theorem harmonic_bounds_neg {a b : ℚ} (ha : a < 0) (hb : b < 0) :
    min a b ≤ 2 * a * b / (a + b) ∧ 2 * a * b / (a + b) ≤ max a b := by
  have hs : a + b < 0 := add_neg ha hb
  rcases le_total a b with h | h
  · rw [min_eq_left h, max_eq_right h, le_div_iff_of_neg hs, div_le_iff_of_neg hs]
    constructor <;> nlinarith
  · rw [min_eq_right h, max_eq_left h, le_div_iff_of_neg hs, div_le_iff_of_neg hs]
    constructor <;> nlinarith

theorem add_eq_zero_iff_eq_neg (a b : ℚ) : a + b = 0 ↔ b = -a := by
  constructor
  · intro h
    linarith
  · intro h
    rw [h]
    ring

theorem harmonicEntry_none_iff {a b : ℚ} (ha : a ≠ 0) (hb : b ≠ 0) :
    harmonicEntry a b = none ↔ b = -a := by
  by_cases hab : a + b = 0
  · simp [harmonicEntry, ha, hb, sdiv, hab, (add_eq_zero_iff_eq_neg a b).mp hab]
  · have hne : b ≠ -a := fun h => hab ((add_eq_zero_iff_eq_neg a b).mpr h)
    simp [harmonicEntry, ha, hb, sdiv, hab, hne]

/-- C29: for two nonzero entries of equal sign the denominator `a + b` is nonzero and
the combined entry `2ab/(a+b)` lies between `min(a,b)` and `max(a,b)`; equal entries
combine to themselves; for nonzero entries the denominator is zero, and the combination
has no value, exactly when `b = -a`. -/
theorem harmonicEntry_same_sign (a b : ℚ) (ha : a ≠ 0) (hb : b ≠ 0) :
    ((0 < a ∧ 0 < b) ∨ (a < 0 ∧ b < 0) →
        a + b ≠ 0
          ∧ harmonicEntry a b = some (2 * a * b / (a + b))
          ∧ min a b ≤ 2 * a * b / (a + b)
          ∧ 2 * a * b / (a + b) ≤ max a b)
      ∧ harmonicEntry a a = some a
      ∧ (a + b = 0 ↔ b = -a)
      ∧ (harmonicEntry a b = none ↔ b = -a) := by
  refine ⟨?_, ?_, add_eq_zero_iff_eq_neg a b, harmonicEntry_none_iff ha hb⟩
  · rintro (⟨hpa, hpb⟩ | ⟨hna, hnb⟩)
    · have hs : a + b ≠ 0 := ne_of_gt (add_pos hpa hpb)
      exact ⟨hs, harmonicEntry_both ha hb hs, (harmonic_bounds_pos hpa hpb).1,
        (harmonic_bounds_pos hpa hpb).2⟩
    · have hs : a + b ≠ 0 := ne_of_lt (add_neg hna hnb)
      exact ⟨hs, harmonicEntry_both ha hb hs, (harmonic_bounds_neg hna hnb).1,
        (harmonic_bounds_neg hna hnb).2⟩
  · have hs : a + a ≠ 0 := by
      intro h
      apply ha
      linarith
    rw [harmonicEntry_both ha ha hs]
    congr 1
    field_simp
    ring

theorem harmonicEntry_same_sign_witness :
    ((0 < (1 : ℚ) ∧ 0 < (3 : ℚ)) ∨ ((1 : ℚ) < 0 ∧ (3 : ℚ) < 0) →
        (1 : ℚ) + 3 ≠ 0
          ∧ harmonicEntry 1 3 = some (2 * 1 * 3 / (1 + 3))
          ∧ min (1 : ℚ) 3 ≤ 2 * 1 * 3 / (1 + 3)
          ∧ 2 * 1 * 3 / (1 + 3) ≤ max (1 : ℚ) 3)
      ∧ harmonicEntry 1 1 = some 1
      ∧ ((1 : ℚ) + 3 = 0 ↔ (3 : ℚ) = -1)
      ∧ (harmonicEntry 1 3 = none ↔ (3 : ℚ) = -1) :=
  harmonicEntry_same_sign 1 3 (by norm_num) (by norm_num)

theorem immobile_find_inside :
    (immobileProblem.intersections 0).find? (fun is => is.indexInInside == 1)
      = some ⟨1, some 1⟩ := by
  simp [immobileProblem]

theorem mean_sum_eq_zero_iff {wI nI wJ nJ : ℚ} (hwI : 0 ≤ wI) (hnI : 0 ≤ nI)
    (hwJ : 0 ≤ wJ) (hnJ : 0 ≤ nJ) :
    (1 / 2 : ℚ) * (wI + wJ) + (1 / 2 : ℚ) * (nI + nJ) = 0
      ↔ wI = 0 ∧ nI = 0 ∧ wJ = 0 ∧ nJ = 0 := by
  constructor
  · intro h
    refine ⟨?_, ?_, ?_, ?_⟩ <;> linarith
  · rintro ⟨h1, h2, h3, h4⟩
    rw [h1, h2, h3, h4]
    norm_num

/-- C28: for nonnegative mobilities the denominator `meanW + meanN` of `mobBar` is zero
exactly when all four contributing mobilities are zero, and strictly positive
otherwise; when they are all zero, `operator()` executes the division by zero on a
face with a neighbor as well as on a boundary face: no branch returns `0` instead. -/
theorem mobBar_unguarded {dim : Nat} {Element Params : Type}
    (problem : Problem dim Element Params) (preComput : Bool)
    (element : Element) (indexInInside : Int) (satI satJ : ℚ)
    (pcGradient : FieldVector dim) (isIt : Intersection Element) (wI nI wJ nJ : ℚ)
    (hfind : (problem.intersections element).find?
      (fun is => is.indexInInside == indexInInside) = some isIt)
    (hI : selectMobilities problem preComput element satI = some (wI, nI))
    (hwI : 0 ≤ wI) (hnI : 0 ≤ nI) (hwJ : 0 ≤ wJ) (hnJ : 0 ≤ nJ) :
    ((1 / 2 : ℚ) * (wI + wJ) + (1 / 2 : ℚ) * (nI + nJ) = 0
        ↔ wI = 0 ∧ nI = 0 ∧ wJ = 0 ∧ nJ = 0)
      ∧ (¬ (wI = 0 ∧ nI = 0 ∧ wJ = 0 ∧ nJ = 0) →
          0 < (1 / 2 : ℚ) * (wI + wJ) + (1 / 2 : ℚ) * (nI + nJ)
            ∧ mobBar ((1 / 2 : ℚ) * (wI + wJ)) ((1 / 2 : ℚ) * (nI + nJ))
              = some (((1 / 2 : ℚ) * (wI + wJ)) * ((1 / 2 : ℚ) * (nI + nJ))
                  / ((1 / 2 : ℚ) * (wI + wJ) + (1 / 2 : ℚ) * (nI + nJ))))
      ∧ ((wI = 0 ∧ nI = 0 ∧ wJ = 0 ∧ nJ = 0) →
          mobBar ((1 / 2 : ℚ) * (wI + wJ)) ((1 / 2 : ℚ) * (nI + nJ)) = none)
      ∧ ((wI = 0 ∧ nI = 0 ∧ wJ = 0 ∧ nJ = 0) →
          ∀ neighbor, isIt.outside = some neighbor →
            selectMobilities problem preComput neighbor satJ = some (wJ, nJ) →
            CapillaryDiffusion.operatorCall problem preComput element indexInInside satI satJ
              pcGradient = none)
      ∧ ((wI = 0 ∧ nI = 0 ∧ wJ = 0 ∧ nJ = 0) →
          isIt.outside = none →
            computedMobilities problem element satJ = some (wJ, nJ) →
            CapillaryDiffusion.operatorCall problem preComput element indexInInside satI satJ
              pcGradient = none) := by
  have hiff := mean_sum_eq_zero_iff hwI hnI hwJ hnJ
  have hnone : (wI = 0 ∧ nI = 0 ∧ wJ = 0 ∧ nJ = 0) →
      mobBar ((1 / 2 : ℚ) * (wI + wJ)) ((1 / 2 : ℚ) * (nI + nJ)) = none := by
    intro hz
    unfold mobBar
    rw [hiff.mpr hz]
    exact sdiv_zero_den _
  refine ⟨hiff, ?_, hnone, ?_, ?_⟩
  · intro hnz
    have hne : (1 / 2 : ℚ) * (wI + wJ) + (1 / 2 : ℚ) * (nI + nJ) ≠ 0 :=
      fun h => hnz (hiff.mp h)
    have hge : 0 ≤ (1 / 2 : ℚ) * (wI + wJ) + (1 / 2 : ℚ) * (nI + nJ) := by
      linarith
    exact ⟨lt_of_le_of_ne hge (Ne.symm hne), sdiv_of_ne hne⟩
  · intro hz neighbor hout hJ
    rw [operatorCall_neighbor_parts problem preComput element neighbor indexInInside satI satJ
      pcGradient isIt hfind hout, hI, hJ]
    simp only [Option.some_bind, hnone hz, Option.none_bind]
    cases harmonicMean (problem.intrinsicPermeability element)
      (problem.intrinsicPermeability neighbor) <;> rfl
  · intro hz hout hJ
    rw [operatorCall_boundary_parts problem preComput element indexInInside satI satJ
      pcGradient isIt hfind hout, hI, hJ]
    simp only [Option.some_bind, hnone hz, Option.none_bind]

theorem mobBar_unguarded_witness :
    mobBar ((1 / 2 : ℚ) * (0 + 0)) ((1 / 2 : ℚ) * (0 + 0)) = none
      ∧ CapillaryDiffusion.operatorCall immobileProblem true 0 1 (1 / 2) (1 / 2) ![1000, 0]
        = none :=
  ⟨(mobBar_unguarded immobileProblem true 0 1 (1 / 2) (1 / 2) ![1000, 0] ⟨1, some 1⟩
      0 0 0 0 immobile_find_inside (by simp [selectMobilities, cachedMobilities, immobileProblem])
      le_rfl le_rfl le_rfl le_rfl).2.2.1 ⟨rfl, rfl, rfl, rfl⟩,
    (mobBar_unguarded immobileProblem true 0 1 (1 / 2) (1 / 2) ![1000, 0] ⟨1, some 1⟩
      0 0 0 0 immobile_find_inside (by simp [selectMobilities, cachedMobilities, immobileProblem])
      le_rfl le_rfl le_rfl le_rfl).2.2.2.1 ⟨rfl, rfl, rfl, rfl⟩ 1 rfl
      (by simp [selectMobilities, cachedMobilities, immobileProblem])⟩

/-- C27: on a face with a neighbor, with `preComput = true` the inside and the neighbor
mobilities are the cached values of the two cells, so the result is the same for all
saturations; with `preComput = false` the inside mobilities are
`krw(params_I, satI) / viscosity_w` and `krn(params_I, satI) / viscosity_n`, the
neighbor mobilities the same expressions with the neighbor's parameters and `satJ`,
and the result is formed from the arithmetic means of these. -/
theorem operatorCall_mobility_paths {dim : Nat} {Element Params : Type}
    (problem : Problem dim Element Params)
    (element neighbor : Element) (indexInInside : Int) (satI satJ satI2 satJ2 : ℚ)
    (pcGradient : FieldVector dim) (isIt : Intersection Element)
    (hfind : (problem.intersections element).find?
      (fun is => is.indexInInside == indexInInside) = some isIt)
    (hout : isIt.outside = some neighbor)
    (hvIw : problem.phaseViscosity PhaseIdx.wPhaseIdx ⟨problem.temperature element⟩ ≠ 0)
    (hvIn : problem.phaseViscosity PhaseIdx.nPhaseIdx ⟨problem.temperature element⟩ ≠ 0)
    (hvJw : problem.phaseViscosity PhaseIdx.wPhaseIdx ⟨problem.temperature neighbor⟩ ≠ 0)
    (hvJn : problem.phaseViscosity PhaseIdx.nPhaseIdx ⟨problem.temperature neighbor⟩ ≠ 0) :
    selectMobilities problem true element satI
        = some (problem.mobilityWetting (problem.index element),
            problem.mobilityNonwetting (problem.index element))
      ∧ selectMobilities problem true neighbor satJ
        = some (problem.mobilityWetting (problem.index neighbor),
            problem.mobilityNonwetting (problem.index neighbor))
      ∧ CapillaryDiffusion.operatorCall problem true element indexInInside satI satJ pcGradient
        = CapillaryDiffusion.operatorCall problem true element indexInInside satI2 satJ2
            pcGradient
      ∧ selectMobilities problem false element satI
        = some (problem.krw (problem.materialLawParams element) satI
              / problem.phaseViscosity PhaseIdx.wPhaseIdx ⟨problem.temperature element⟩,
            problem.krn (problem.materialLawParams element) satI
              / problem.phaseViscosity PhaseIdx.nPhaseIdx ⟨problem.temperature element⟩)
      ∧ selectMobilities problem false neighbor satJ
        = some (problem.krw (problem.materialLawParams neighbor) satJ
              / problem.phaseViscosity PhaseIdx.wPhaseIdx ⟨problem.temperature neighbor⟩,
            problem.krn (problem.materialLawParams neighbor) satJ
              / problem.phaseViscosity PhaseIdx.nPhaseIdx ⟨problem.temperature neighbor⟩)
      ∧ CapillaryDiffusion.operatorCall problem false element indexInInside satI satJ pcGradient
        = (harmonicMean (problem.intrinsicPermeability element)
            (problem.intrinsicPermeability neighbor)).bind fun K =>
          (mobBar
            ((1 / 2 : ℚ)
              * (problem.krw (problem.materialLawParams element) satI
                  / problem.phaseViscosity PhaseIdx.wPhaseIdx ⟨problem.temperature element⟩
                + problem.krw (problem.materialLawParams neighbor) satJ
                  / problem.phaseViscosity PhaseIdx.wPhaseIdx ⟨problem.temperature neighbor⟩))
            ((1 / 2 : ℚ)
              * (problem.krn (problem.materialLawParams element) satI
                  / problem.phaseViscosity PhaseIdx.nPhaseIdx ⟨problem.temperature element⟩
                + problem.krn (problem.materialLawParams neighbor) satJ
                  / problem.phaseViscosity PhaseIdx.nPhaseIdx
                      ⟨problem.temperature neighbor⟩))).bind fun l =>
          some (fun i => umv K pcGradient (fun _ => 0) i * l) := by
  have hI : selectMobilities problem false element satI = _ :=
    computedMobilities_of_ne problem element satI hvIw hvIn
  have hJ : selectMobilities problem false neighbor satJ = _ :=
    computedMobilities_of_ne problem neighbor satJ hvJw hvJn
  refine ⟨rfl, rfl, ?_, hI, hJ, ?_⟩
  · rw [operatorCall_neighbor_parts problem true element neighbor indexInInside satI satJ
        pcGradient isIt hfind hout,
      operatorCall_neighbor_parts problem true element neighbor indexInInside satI2 satJ2
        pcGradient isIt hfind hout]
    rfl
  · rw [operatorCall_neighbor_parts problem false element neighbor indexInInside satI satJ
        pcGradient isIt hfind hout, hI, hJ]
    simp only [Option.some_bind]

theorem operatorCall_mobility_paths_witness :
    CapillaryDiffusion.operatorCall twoCellProblem true 0 1 (1 / 3) (2 / 3) ![1000, 0]
        = CapillaryDiffusion.operatorCall twoCellProblem true 0 1 (1 / 5) (4 / 5) ![1000, 0]
      ∧ selectMobilities twoCellProblem false 0 (1 / 3)
        = some (twoCellProblem.krw (twoCellProblem.materialLawParams 0) (1 / 3)
              / twoCellProblem.phaseViscosity PhaseIdx.wPhaseIdx ⟨twoCellProblem.temperature 0⟩,
            twoCellProblem.krn (twoCellProblem.materialLawParams 0) (1 / 3)
              / twoCellProblem.phaseViscosity PhaseIdx.nPhaseIdx
                  ⟨twoCellProblem.temperature 0⟩) :=
  ⟨(operatorCall_mobility_paths twoCellProblem 0 1 1 (1 / 3) (2 / 3) (1 / 5) (4 / 5) ![1000, 0]
      ⟨1, some 1⟩ twoCell_find_inside rfl (by simp [twoCellProblem]) (by simp [twoCellProblem])
      (by simp [twoCellProblem]) (by simp [twoCellProblem])).2.2.1,
    (operatorCall_mobility_paths twoCellProblem 0 1 1 (1 / 3) (2 / 3) (1 / 5) (4 / 5) ![1000, 0]
      ⟨1, some 1⟩ twoCell_find_inside rfl (by simp [twoCellProblem]) (by simp [twoCellProblem])
      (by simp [twoCellProblem]) (by simp [twoCellProblem])).2.2.2.1⟩

end Dune
